import Mathlib

/-!
Verification of the audio analysis / beat detection core of the Visualizer
repository.  The TypeScript sources are embedded shallowly over `ℚ`
(JS `number` idealised as exact rationals).  The transcendental functions of
the JS `Math` library (`sqrt`, `log`, `log2`, `log10`, `pow(10, ·)`) have no
exact rational counterpart; they are threaded through the definitions as
explicit function parameters, and theorems assume only elementary facts about
them that the real functions satisfy (for example `0 ≤ sqrt x`, `log2 2 = 1`).
-/

namespace Visualizer

/-! ### JS numeric helpers -/

/-- JS `Math.round`: `Math.round(x) = Math.floor(x + 0.5)`. -/
def jsRound (q : ℚ) : ℤ := ⌊q + 1/2⌋

/-- JS number truncation (rounding toward zero), used by the JS `%` operator. -/
def jsTrunc (q : ℚ) : ℤ := if 0 ≤ q then ⌊q⌋ else ⌈q⌉

/-- JS `%` on numbers: remainder with the sign of the dividend,
`a % b = a - b * trunc(a / b)`. -/
def jsMod (a b : ℚ) : ℚ := a - b * (jsTrunc (a / b) : ℚ)

/-- The JS idiom `arr.push(x); if (arr.length > cap) arr.shift();` -/
def pushShift {α : Type} (cap : ℕ) (xs : List α) (x : α) : List α :=
  let ys := xs ++ [x]
  if cap < ys.length then ys.drop 1 else ys

/-- `arr.reduce((sum, val) => sum + val, 0) / arr.length` (JS yields NaN on an
empty array; all call sites in the source apply it to non-empty arrays). -/
def listMean (l : List ℚ) : ℚ := l.sum / (l.length : ℚ)

/-- JS `Math.max(...arr)` for the non-empty arrays it is applied to. -/
def listMax : List ℚ → ℚ
  | [] => 0
  | x :: xs => xs.foldl max x

/-! ### Data model of `beatDetector.ts` -/

/-- `RhythmPattern` of `beatDetector.ts`. -/
structure RhythmPattern where
  pattern : List Bool
  confidence : ℚ
  period : ℕ
deriving Repr, DecidableEq

/-- `BeatData` of `beatDetector.ts`. -/
structure BeatData where
  isBeat : Bool
  confidence : ℚ
  tempo : ℚ
  timeSignature : ℚ
  beatPhase : ℚ
  intensity : ℚ
deriving Repr, DecidableEq

/-- The mutable fields of class `AdvancedBeatDetector`. -/
structure DetectorState where
  sampleRate : ℚ
  bufferSize : ℚ
  energyHistory : List ℚ
  beatHistory : List ℚ
  tempoHistory : List ℚ
  lastBeatTime : ℚ
  beatInterval : ℚ
  beatPhase : ℚ
  bassHistory : List ℚ
  midHistory : List ℚ
  trebleHistory : List ℚ
  rhythmPatterns : List RhythmPattern
  patternBuffer : List Bool
deriving Repr, DecidableEq

/-- `new AdvancedBeatDetector(sampleRate, bufferSize)`. -/
def initDetector (sampleRate bufferSize : ℚ) : DetectorState :=
  { sampleRate := sampleRate
    bufferSize := bufferSize
    energyHistory := []
    beatHistory := []
    tempoHistory := []
    lastBeatTime := 0
    beatInterval := 0
    beatPhase := 0
    bassHistory := []
    midHistory := []
    trebleHistory := []
    rhythmPatterns := []
    patternBuffer := [] }

/-- `energyThreshold = 1.3`. -/
def energyThreshold : ℚ := 13/10

/-- `minBeatInterval = 300` ms. -/
def minBeatInterval : ℚ := 300

/-- `maxBeatInterval = 2000` ms (declared in the source, never read). -/
def maxBeatInterval : ℚ := 2000

/-- `historySize = 43`. -/
def historySize : ℕ := 43

/-- `tempoSmoothingFactor = 0.9`. -/
def tempoSmoothingFactor : ℚ := 9/10

/-- `calculateEnergy`: `sqrt(sum(f[i]^2) / length) / 255`.  `s` models
`Math.sqrt`.  Frequency-bin values are `Uint8` samples, modelled as `ℕ`. -/
def calculateEnergy (s : ℚ → ℚ) (frequencyData : List ℕ) : ℚ :=
  let sum : ℚ := (frequencyData.map (fun (v : ℕ) => (v : ℚ) * (v : ℚ))).sum
  s (sum / (frequencyData.length : ℚ)) / 255

/-- `updateFrequencyHistories` (caps of 20 with shift-on-overflow). -/
def updateFrequencyHistories (st : DetectorState) (bass mid treble : ℚ) :
    DetectorState :=
  { st with
      bassHistory := pushShift 20 st.bassHistory bass
      midHistory := pushShift 20 st.midHistory mid
      trebleHistory := pushShift 20 st.trebleHistory treble }

/-- `detectBeat`.  Returns `(isBeat, confidence, new state)`. -/
def detectBeat (s : ℚ → ℚ) (st : DetectorState) (energy currentTime : ℚ) :
    Bool × ℚ × DetectorState :=
  if st.energyHistory.length < 10 then (false, 0, st)
  else
    let recentEnergy := st.energyHistory.drop (st.energyHistory.length - 10)
    let localAverage := listMean recentEnergy
    let variance :=
      (recentEnergy.map (fun val => (val - localAverage) ^ 2)).sum /
        (recentEnergy.length : ℚ)
    let adaptiveThreshold := energyThreshold + s variance
    let energyRatio := energy / (localAverage + 1/1000)
    let isEnergyBeat := adaptiveThreshold < energyRatio
    let timeSinceLastBeat := currentTime - st.lastBeatTime
    let isTimingValid := minBeatInterval ≤ timeSinceLastBeat
    let bassAvg := listMean st.bassHistory
    let isBassHit := bassAvg * (12/10) < st.bassHistory.getLastD 0
    if isEnergyBeat ∧ isTimingValid ∧ isBassHit then
      (true, min 1 ((energyRatio - 1) * (1/2)),
        { st with
            lastBeatTime := currentTime
            beatHistory := pushShift 8 st.beatHistory currentTime })
    else (false, 0, st)

/-- `median` (sorts a copy ascending; JS numeric comparator). -/
def median (arr : List ℚ) : ℚ :=
  let sorted := arr.insertionSort (· ≤ ·)
  let mid := sorted.length / 2
  if sorted.length % 2 = 0 then (sorted.getD (mid - 1) 0 + sorted.getD mid 0) / 2
  else sorted.getD mid 0

/-- `calculateTempo`.  Returns `(tempo, new state)`. -/
def calculateTempo (st : DetectorState) (currentTime : ℚ) (isBeat : Bool) :
    ℚ × DetectorState :=
  if isBeat = false ∨ st.beatHistory.length < 2 then
    (st.tempoHistory.getLastD 120, st)
  else
    let intervals := (List.range' 1 (st.beatHistory.length - 1)).map
      (fun i => st.beatHistory.getD i 0 - st.beatHistory.getD (i - 1) 0)
    let medianInterval := median intervals
    let validIntervals := intervals.filter
      (fun interval => |interval - medianInterval| < medianInterval * (3/10))
    if validIntervals.length = 0 then (120, st)
    else
      let avgInterval := listMean validIntervals
      let newTempo : ℚ := (jsRound (60000 / avgInterval) : ℤ)
      let lastTempo := st.tempoHistory.getLastD newTempo
      let smoothedTempo : ℚ :=
        (jsRound (lastTempo * tempoSmoothingFactor +
          newTempo * (1 - tempoSmoothingFactor)) : ℤ)
      let finalTempo := max 60 (min 200 smoothedTempo)
      (finalTempo,
        { st with tempoHistory := pushShift 10 st.tempoHistory finalTempo })

/-- `updateBeatPhase`. -/
def updateBeatPhase (st : DetectorState) (currentTime tempo : ℚ) :
    DetectorState :=
  if st.lastBeatTime = 0 then { st with beatPhase := 0 }
  else
    let beatDuration := 60000 / tempo
    let timeSinceLastBeat := currentTime - st.lastBeatTime
    { st with beatPhase := jsMod timeSinceLastBeat beatDuration / beatDuration }

/-- `patternsMatch`: same length and more than 80 percent matching bits. -/
def patternsMatch (pattern1 pattern2 : List Bool) : Bool :=
  if pattern1.length ≠ pattern2.length then false
  else
    let matchCount := ((List.range pattern1.length).filter
      (fun i => pattern1.getD i false = pattern2.getD i false)).length
    decide ((8 : ℚ)/10 < (matchCount : ℚ) / (pattern1.length : ℚ))

/-- `calculatePatternConfidence`.  The source iterates
`for (i = length; i < buffer.length - length; i += length)`; those indices are
exactly the positive multiples of `length` below `buffer.length - length`
(`length` is always one of 4, 8, 16 at the call sites). -/
def calculatePatternConfidence (buffer pattern : List Bool) (len : ℕ) : ℚ :=
  if buffer.length < len * 3 then 0
  else
    let starts := (List.range buffer.length).filter
      (fun i => len ≤ i ∧ i % len = 0 ∧ i < buffer.length - len)
    let matchCount := (starts.map (fun i =>
      ((List.range len).filter
        (fun j => buffer.getD (i + j) false = pattern.getD j false)).length)).sum
    let total := starts.length * len
    if 0 < total then (matchCount : ℚ) / (total : ℚ) else 0

/-- The `find`-and-update-or-push step of `analyzeRhythmPatterns`: bump the
confidence of the first stored pattern with the same period that matches,
otherwise append a new pattern. -/
def bumpOrInsert : List RhythmPattern → List Bool → ℚ → ℕ → List RhythmPattern
  | [], cand, conf, len => [⟨cand, conf, len⟩]
  | p :: ps, cand, conf, len =>
    if p.period = len ∧ patternsMatch p.pattern cand then
      { p with confidence := min 1 (p.confidence + 1/10) } :: ps
    else p :: bumpOrInsert ps cand conf len

/-- One iteration of the `for (const length of patternLengths)` loop of
`analyzeRhythmPatterns`. -/
def processPatternLength (buffer : List Bool) (patterns : List RhythmPattern)
    (len : ℕ) : List RhythmPattern :=
  if buffer.length < len * 2 then patterns
  else
    let pattern := buffer.drop (buffer.length - len)
    let conf := calculatePatternConfidence buffer pattern len
    if (6 : ℚ)/10 < conf then bumpOrInsert patterns pattern conf len
    else patterns

/-- `analyzeRhythmPatterns` (JS `Array.sort` is stable; mirrored by insertion
sort on the descending-confidence comparator). -/
def analyzeRhythmPatterns (st : DetectorState) : DetectorState :=
  let ps := [4, 8, 16].foldl (processPatternLength st.patternBuffer)
    st.rhythmPatterns
  let ps := ps.filter (fun p => (3 : ℚ)/10 < p.confidence)
  let ps :=
    if 5 < ps.length then
      (ps.insertionSort (fun a b => b.confidence ≤ a.confidence)).take 5
    else ps
  { st with rhythmPatterns := ps }

/-- `updateRhythmPatterns`. -/
def updateRhythmPatterns (st : DetectorState) (isBeat : Bool) : DetectorState :=
  let st := { st with patternBuffer := pushShift 32 st.patternBuffer isBeat }
  if 16 ≤ st.patternBuffer.length ∧ st.patternBuffer.length % 16 = 0 then
    analyzeRhythmPatterns st
  else st

/-- `estimateTimeSignature`. -/
def estimateTimeSignature (st : DetectorState) : ℚ :=
  let strongPatterns := st.rhythmPatterns.filter
    (fun p => (7 : ℚ)/10 < p.confidence)
  if strongPatterns.length = 0 then 4
  else
    let periods : List ℕ := strongPatterns.map (fun p => p.period)
    if (4 : ℕ) ∈ periods ∨ (8 : ℕ) ∈ periods then 4
    else if (3 : ℕ) ∈ periods ∨ (6 : ℕ) ∈ periods then 3
    else if (2 : ℕ) ∈ periods then 2
    else 4

/-- `calculateIntensity`. -/
def calculateIntensity (bass mid treble energy : ℚ) : ℚ :=
  min 1 ((bass * (4/10) + mid * (3/10) + treble * (2/10) + energy * (1/10)) * 2)

/-- `analyze`.  The wall clock (`Date.now()` in the source) is lifted to the
explicit parameter `currentTime`; `timeData` is accepted and ignored exactly as
in the source. -/
def analyze (s : ℚ → ℚ) (st : DetectorState) (frequencyData timeData : List ℕ)
    (bass mid treble : ℚ) (currentTime : ℚ) : BeatData × DetectorState :=
  let energy := calculateEnergy s frequencyData
  let st1 := updateFrequencyHistories st bass mid treble
  let st2 := { st1 with
    energyHistory := pushShift historySize st1.energyHistory energy }
  let beatResult := detectBeat s st2 energy currentTime
  let isBeat := beatResult.1
  let conf := beatResult.2.1
  let st3 := beatResult.2.2
  let tempoResult := calculateTempo st3 currentTime isBeat
  let tempo := tempoResult.1
  let st4 := tempoResult.2
  let st5 := updateBeatPhase st4 currentTime tempo
  let st6 := updateRhythmPatterns st5 isBeat
  let timeSignature := estimateTimeSignature st6
  (⟨isBeat, conf, tempo, timeSignature, st6.beatPhase,
    calculateIntensity bass mid treble energy⟩, st6)

/-- `reset`. -/
def reset (st : DetectorState) : DetectorState :=
  { st with
      energyHistory := []
      beatHistory := []
      tempoHistory := []
      bassHistory := []
      midHistory := []
      trebleHistory := []
      rhythmPatterns := []
      patternBuffer := []
      lastBeatTime := 0
      beatPhase := 0 }

/-- One tick of input to `analyze`. -/
structure TickInput where
  frequencyData : List ℕ
  timeData : List ℕ
  bass : ℚ
  mid : ℚ
  treble : ℚ
  time : ℚ
deriving Repr, DecidableEq

/-- Run `analyze` over a sequence of ticks, collecting the per-tick outputs. -/
def runDetector (s : ℚ → ℚ) : DetectorState → List TickInput →
    List BeatData × DetectorState
  | st, [] => ([], st)
  | st, inp :: rest =>
    let r := analyze s st inp.frequencyData inp.timeData inp.bass inp.mid
      inp.treble inp.time
    let rr := runDetector s r.2 rest
    (r.1 :: rr.1, rr.2)

/-- The wall-clock times of the ticks whose output accepted a beat. -/
def acceptedTimes (s : ℚ → ℚ) (st : DetectorState) (inputs : List TickInput) :
    List ℚ :=
  ((inputs.zip (runDetector s st inputs).1).filter
    (fun p => p.2.isBeat)).map (fun p => p.1.time)

/-! ### Data model of `advancedAudioAnalysis.ts` (and the parts of
`audioAnalyzer.ts` and `storyThemeEngine.ts` it needs) -/

/-- The transcendental `Math` functions used by the analyzer, abstracted. -/
structure JsMath where
  sqrt : ℚ → ℚ
  log : ℚ → ℚ
  log2 : ℚ → ℚ
  log10 : ℚ → ℚ
  pow10 : ℚ → ℚ

/-- The private `sampleRate = 44100` field of `AdvancedAudioAnalyzer`. -/
def analyzerSampleRate : ℚ := 44100

/-- `AdvancedAudioFeatures`. -/
structure AdvancedAudioFeatures where
  spectralCentroid : ℚ
  spectralRolloff : ℚ
  spectralFlux : ℚ
  zeroCrossingRate : ℚ
  mfcc : List ℚ
  chroma : List ℚ
  tonnetz : List ℚ
  harmonicRatio : ℚ
  percussiveRatio : ℚ
deriving Repr, DecidableEq

/-- `AudioAnalysisData` of `audioAnalyzer.ts`. -/
structure AudioAnalysisData where
  frequencyData : List ℕ
  timeData : List ℕ
  volume : ℚ
  bass : ℚ
  mid : ℚ
  treble : ℚ
  beat : Bool
  tempo : ℚ
deriving Repr, DecidableEq

/-- `MusicCharacteristics` of `storyThemeEngine.ts` (mood/genre/key as
strings). -/
structure MusicCharacteristics where
  tempo : ℚ
  energy : ℚ
  valence : ℚ
  danceability : ℚ
  acousticness : ℚ
  instrumentalness : ℚ
  genre : String
  mood : String
  timeSignature : ℚ
  key : String
deriving Repr, DecidableEq

/-- `AudioAnalyzer.getFrequencyBandAverage` of `audioAnalyzer.ts` (the spectral
frontend producing `bass`/`mid`/`treble`); `ctxSampleRate` is the audio
context's sample rate. -/
def getFrequencyBandAverage (ctxSampleRate : ℚ) (freqData : List ℕ)
    (startFreq endFreq : ℚ) : ℚ :=
  let nyquist := ctxSampleRate / 2
  let startBin : ℤ := ⌊startFreq / nyquist * (freqData.length : ℚ)⌋
  let endBin : ℤ := ⌊endFreq / nyquist * (freqData.length : ℚ)⌋
  let idxs := (List.range freqData.length).filter (fun (i : ℕ) =>
    decide (startBin ≤ (i : ℤ) ∧ (i : ℤ) < min endBin (freqData.length : ℤ)))
  let sum : ℚ := (idxs.map (fun i => (freqData.getD i 0 : ℚ))).sum
  let count : ℕ := idxs.length
  if 0 < count then sum / (count : ℚ) / 255 else 0

/-- `calculateSpectralCentroid` (the single loop accumulating both sums is
rendered as two sums over the same index range). -/
def calculateSpectralCentroid (freq : List ℕ) : ℚ :=
  let weightedSum := ((List.range freq.length).map (fun (i : ℕ) =>
    ((i : ℚ) * analyzerSampleRate / (2 * (freq.length : ℚ))) *
      ((freq.getD i 0 : ℚ) / 255))).sum
  let magnitudeSum := ((List.range freq.length).map
    (fun i => (freq.getD i 0 : ℚ) / 255)).sum
  if 0 < magnitudeSum then weightedSum / magnitudeSum else 0

/-- `calculateSpectralRolloff` (the early-`return` loop becomes `find?`). -/
def calculateSpectralRolloff (freq : List ℕ) : ℚ :=
  let totalEnergy := (freq.map (fun (v : ℕ) => ((v : ℚ) / 255) ^ 2)).sum
  let targetEnergy := totalEnergy * (85/100)
  match (List.range freq.length).find? (fun i =>
    decide (targetEnergy ≤
      ((freq.take (i + 1)).map (fun (v : ℕ) => ((v : ℚ) / 255) ^ 2)).sum)) with
  | some i => (i : ℚ) * analyzerSampleRate / (2 * (freq.length : ℚ))
  | none => analyzerSampleRate / 2

/-- Placeholder features record (the `getLastD` default below; never selected
because the empty-history case returns first). -/
def noFeatures : AdvancedAudioFeatures := ⟨0, 0, 0, 0, [], [], [], 0, 0⟩

/-- `calculateSpectralFlux`: compares the current spectrum against the
previous tick's MFCC vector and divides by the bin count used. -/
def calculateSpectralFlux (history : List AdvancedAudioFeatures)
    (freq : List ℕ) : ℚ :=
  if history.length = 0 then 0
  else
    let previousSpectrum := history.getLastD noFeatures
    let minLength := min freq.length 128
    let flux := ((List.range minLength).map (fun i =>
      let current := (freq.getD i 0 : ℚ) / 255
      let previous := if i < previousSpectrum.mfcc.length
        then previousSpectrum.mfcc.getD i 0 else 0
      max 0 (current - previous))).sum
    flux / (minLength : ℚ)

/-- `calculateZeroCrossingRate`. -/
def calculateZeroCrossingRate (timeData : List ℕ) : ℚ :=
  let crossings := ((List.range' 1 (timeData.length - 1)).filter (fun i =>
    let prev : ℤ := (timeData.getD (i - 1) 0 : ℤ) - 128
    let curr : ℤ := (timeData.getD i 0 : ℤ) - 128
    decide ((0 ≤ prev ∧ curr < 0) ∨ (prev < 0 ∧ 0 ≤ curr)))).length
  (crossings : ℚ) / (timeData.length : ℚ)

/-- `hzToMel`. -/
def hzToMel (M : JsMath) (hz : ℚ) : ℚ := 2595 * M.log10 (1 + hz / 700)

/-- `melToHz`. -/
def melToHz (M : JsMath) (mel : ℚ) : ℚ := 700 * (M.pow10 (mel / 2595) - 1)

/-- `createMelFilterBank` (the assignment loop over
`[max(0, c-w), min(len, c+w))` becomes a positional `if`). -/
def createMelFilterBank (M : JsMath) (spectrumLength numFilters : ℕ) :
    List (List ℚ) :=
  (List.range numFilters).map (fun i =>
    let melMax := hzToMel M (analyzerSampleRate / 2)
    let melMin := hzToMel M 0
    let centerMel := melMin +
      ((i : ℚ) + 1) * (melMax - melMin) / ((numFilters : ℚ) + 1)
    let centerHz := melToHz M centerMel
    let centerBin : ℤ :=
      ⌊centerHz * (spectrumLength : ℚ) * 2 / analyzerSampleRate⌋
    let width : ℤ := (spectrumLength / numFilters : ℕ)
    (List.range spectrumLength).map (fun j =>
      if max 0 (centerBin - width) ≤ (j : ℤ) ∧
          (j : ℤ) < min (spectrumLength : ℤ) (centerBin + width) then
        1 - |(j : ℚ) - (centerBin : ℚ)| / (width : ℚ)
      else 0))

/-- `calculateMFCC`. -/
def calculateMFCC (M : JsMath) (freq : List ℕ) : List ℚ :=
  let numCoefficients : ℕ := 13
  let melFilters := createMelFilterBank M freq.length numCoefficients
  (List.range numCoefficients).map (fun i =>
    let coefficient := ((List.range freq.length).map (fun j =>
      ((freq.getD j 0 : ℚ) / 255) * ((melFilters.getD i []).getD j 0))).sum
    M.log (coefficient + 1/10000000000))

/-- The body of `calculateChroma`'s accumulation loop.  JS `%` on the rounded
pitch class is truncated remainder (`Int.tmod`), then negative values are
shifted up by 12. -/
def chromaStep (M : JsMath) (freq : List ℕ) (acc : List ℚ) (i : ℕ) : List ℚ :=
  let frequency : ℚ := (i : ℚ) * analyzerSampleRate / (2 * (freq.length : ℚ))
  let magnitude : ℚ := (freq.getD i 0 : ℚ) / 255
  if 80 < frequency ∧ frequency < 5000 then
    let pitchClass := (jsRound (12 * M.log2 (frequency / 440))).tmod 12
    let npc := (if pitchClass < 0 then pitchClass + 12 else pitchClass).toNat
    acc.set npc (acc.getD npc 0 + magnitude)
  else acc

/-- `calculateChroma` (loop from bin 1 to the last bin). -/
def calculateChroma (M : JsMath) (freq : List ℕ) : List ℚ :=
  let chroma := (List.range' 1 (freq.length - 1)).foldl (chromaStep M freq)
    (List.replicate 12 (0 : ℚ))
  let sum := chroma.sum
  if 0 < sum then chroma.map (fun val => val / sum) else chroma

/-- `dotProduct` (all call sites pass equal-length vectors). -/
def dotProduct (a b : List ℚ) : ℚ := ((a.zip b).map (fun p => p.1 * p.2)).sum

/-- `calculateTonnetz`. -/
def calculateTonnetz (M : JsMath) (freq : List ℕ) : List ℚ :=
  let chroma := calculateChroma M freq
  let majorThird : List ℚ := [1, 0, 0, 0, 1, 0, 0, 1, 0, 0, 0, 0]
  let minorThird : List ℚ := [1, 0, 0, 1, 0, 0, 0, 1, 0, 0, 0, 0]
  let perfectFifth : List ℚ := [1, 0, 0, 0, 0, 0, 0, 1, 0, 0, 0, 0]
  [dotProduct chroma majorThird, dotProduct chroma minorThird,
    dotProduct chroma perfectFifth]

/-- `fundamentalFreqs` of `isLikelyHarmonic`. -/
def fundamentalFreqs : List ℚ := [82, 110, 147, 196, 247, 330, 440, 587, 784]

/-- `isLikelyHarmonic`. -/
def isLikelyHarmonic (frequency : ℚ) : Bool :=
  fundamentalFreqs.any (fun fundamental =>
    (List.range' 1 8).any (fun harmonic =>
      decide (|frequency - fundamental * (harmonic : ℚ)| < 10)))

/-- `calculateHarmonicRatio`. -/
def calculateHarmonicRatio (freq : List ℕ) : ℚ :=
  let totalEnergy := ((List.range freq.length).map
    (fun i => ((freq.getD i 0 : ℚ) / 255) ^ 2)).sum
  let harmonicEnergy := ((List.range freq.length).map (fun (i : ℕ) =>
    if isLikelyHarmonic ((i : ℚ) * analyzerSampleRate / (2 * (freq.length : ℚ)))
      then ((freq.getD i 0 : ℚ) / 255) ^ 2 else 0)).sum
  if 0 < totalEnergy then harmonicEnergy / totalEnergy else 0

/-- `calculatePercussiveRatio` (`beatData.confidence || 0` equals the
confidence itself over exact rationals). -/
def calculatePercussiveRatio (history : List AdvancedAudioFeatures)
    (freq : List ℕ) (beatConfidence : ℚ) : ℚ :=
  let spectralFlux := calculateSpectralFlux history freq
  let startIdx : ℕ := freq.length * 7 / 10
  let highFreqEnergy := ((List.range' startIdx (freq.length - startIdx)).map
    (fun i => ((freq.getD i 0 : ℚ) / 255) ^ 2)).sum
  let normalizedHighFreq := highFreqEnergy / ((freq.length - startIdx : ℕ) : ℚ)
  spectralFlux * (4/10) + beatConfidence * (4/10) + normalizedHighFreq * (2/10)

/-- `analyzeAdvancedFeatures`: computes the feature record and appends it to
the (cap 1000) analysis history.  Returns `(features, new history)`. -/
def analyzeAdvancedFeatures (M : JsMath) (history : List AdvancedAudioFeatures)
    (beatData : BeatData) (timeData frequencyData : List ℕ) :
    AdvancedAudioFeatures × List AdvancedAudioFeatures :=
  let features : AdvancedAudioFeatures :=
    { spectralCentroid := calculateSpectralCentroid frequencyData
      spectralRolloff := calculateSpectralRolloff frequencyData
      spectralFlux := calculateSpectralFlux history frequencyData
      zeroCrossingRate := calculateZeroCrossingRate timeData
      mfcc := calculateMFCC M frequencyData
      chroma := calculateChroma M frequencyData
      tonnetz := calculateTonnetz M frequencyData
      harmonicRatio := calculateHarmonicRatio frequencyData
      percussiveRatio := calculatePercussiveRatio history frequencyData
        beatData.confidence }
  (features, pushShift 1000 history features)

/-- `getMajorKeyStrength`. -/
def getMajorKeyStrength (chroma : List ℚ) : ℚ :=
  let majorProfile : List ℚ := [1, 0, 1, 0, 1, 1, 0, 1, 0, 1, 0, 1]
  dotProduct chroma majorProfile / majorProfile.sum

/-- `calculateValence` (its `audioData` parameter is unused in the source). -/
def calculateValence (features : AdvancedAudioFeatures)
    (audioData : AudioAnalysisData) : ℚ :=
  let majorKeyStrength := getMajorKeyStrength features.chroma
  let brightness := features.spectralCentroid / 5000
  let harmonicity := features.harmonicRatio
  min 1 (majorKeyStrength * (4/10) + brightness * (3/10) + harmonicity * (3/10))

/-- `calculateDanceability` (`beatData.confidence || 0.5` reads 0.5 exactly
when the confidence is 0). -/
def calculateDanceability (beatData : BeatData)
    (features : AdvancedAudioFeatures) : ℚ :=
  let rhythmStrength := if beatData.confidence = 0 then (1 : ℚ)/2
    else beatData.confidence
  let percussiveness := features.percussiveRatio
  let regularity := 1 - features.spectralFlux
  min 1 (rhythmStrength * (5/10) + percussiveness * (3/10) +
    regularity * (2/10))

/-- `calculateAcousticness`. -/
def calculateAcousticness (features : AdvancedAudioFeatures) : ℚ :=
  let lowFreqBias := 1 - features.spectralCentroid / 5000
  let harmonicity := features.harmonicRatio
  let naturalness := 1 - features.spectralFlux
  min 1 (lowFreqBias * (4/10) + harmonicity * (4/10) + naturalness * (2/10))

/-- `calculateVariance` of `AdvancedAudioAnalyzer` (returns the standard
deviation). -/
def calculateVariance (M : JsMath) (array : List ℚ) : ℚ :=
  let mean := array.sum / (array.length : ℚ)
  let variance := (array.map (fun val => (val - mean) ^ 2)).sum /
    (array.length : ℚ)
  M.sqrt variance

/-- `calculateInstrumentalness`. -/
def calculateInstrumentalness (M : JsMath)
    (features : AdvancedAudioFeatures) : ℚ :=
  let lowZCR := 1 - features.zeroCrossingRate
  let mfccVariance := calculateVariance M features.mfcc
  let consistency := 1 - mfccVariance
  min 1 (lowZCR * (6/10) + consistency * (4/10))

/-- `detectMood`: the ordered first-match-wins cascade. -/
def detectMood (features : AdvancedAudioFeatures)
    (audioData : AudioAnalysisData) : String :=
  let energy := (audioData.bass + audioData.mid + audioData.treble) / 3
  let valence := calculateValence features audioData
  let spectralCentroid := features.spectralCentroid
  if (7 : ℚ)/10 < energy ∧ (6 : ℚ)/10 < valence then "energetic"
  else if energy < (4 : ℚ)/10 ∧ (5 : ℚ)/10 < valence then "calm"
  else if valence < (3 : ℚ)/10 ∨ spectralCentroid < 1000 then "dark"
  else if (7 : ℚ)/10 < valence ∧ 2000 < spectralCentroid then "uplifting"
  else if energy < (5 : ℚ)/10 ∧ valence < (5 : ℚ)/10 then "mysterious"
  else if (6 : ℚ)/10 < valence ∧ energy < (6 : ℚ)/10 then "romantic"
  else if (8 : ℚ)/10 < energy ∧ (7 : ℚ)/10 < features.percussiveRatio then
    "aggressive"
  else "calm"

/-- The `keys` table of `detectKey`. -/
def keyNames : List String :=
  ["C", "C#", "D", "D#", "E", "F"] ++
  ["F#", "G", "G#", "A", "A#", "B"]

/-- `detectKey`: correlate the chroma vector against the 12 rotations of the
major-scale template, keeping the first strict maximum. -/
def detectKey (chroma : List ℚ) : String :=
  let majorProfile : List ℚ := [1, 0, 1, 0, 1, 1, 0, 1, 0, 1, 0, 1]
  let r := (List.range 12).foldl (fun acc i =>
    let rotatedProfile := majorProfile.drop i ++ majorProfile.take i
    let correlation := dotProduct chroma rotatedProfile
    if acc.1 < correlation then (correlation, keyNames.getD i "C") else acc)
    ((-1 : ℚ), "C")
  r.2

/-! #### `GenreClassifier` -/

/-- The `characteristics` sub-vector of `GenreClassification`. -/
structure GenreCharacteristics where
  electronic : ℚ
  acoustic : ℚ
  vocal : ℚ
  instrumental : ℚ
  rhythmic : ℚ
  melodic : ℚ
deriving Repr, DecidableEq

/-- `GenreClassification`. -/
structure GenreClassification where
  primary : String
  confidence : ℚ
  secondary : List String
  characteristics : GenreCharacteristics
deriving Repr, DecidableEq

/-- `GenreClassifier.calculateMFCCVariance`. -/
def calculateMFCCVariance (M : JsMath) (mfcc : List ℚ) : ℚ :=
  let mean := mfcc.sum / (mfcc.length : ℚ)
  let variance := (mfcc.map (fun val => (val - mean) ^ 2)).sum /
    (mfcc.length : ℚ)
  min 1 (M.sqrt variance)

/-- `GenreClassifier.calculateVocalScore`. -/
def calculateVocalScore (M : JsMath) (features : AdvancedAudioFeatures) : ℚ :=
  let midRangeZCR : ℚ := if (1 : ℚ)/10 < features.zeroCrossingRate ∧
    features.zeroCrossingRate < (3 : ℚ)/10 then 1 else 0
  midRangeZCR * (6/10) + calculateMFCCVariance M features.mfcc * (4/10)

/-- `GenreClassifier.calculateElectronicScore`. -/
def calculateElectronicScore (features : AdvancedAudioFeatures)
    (audioData : AudioAnalysisData) : ℚ :=
  audioData.treble * (4/10) + features.spectralFlux * (3/10) +
    (1 - features.harmonicRatio) * (3/10)

/-- `GenreClassifier.calculateAcousticScore`. -/
def calculateAcousticScore (features : AdvancedAudioFeatures) : ℚ :=
  features.harmonicRatio * (6/10) + (1 - features.spectralFlux) * (4/10)

/-- `GenreClassifier.calculateInstrumentalScore`. -/
def calculateInstrumentalScore (M : JsMath)
    (features : AdvancedAudioFeatures) : ℚ :=
  1 - calculateVocalScore M features

/-- `GenreClassifier.calculateRhythmicScore` (`confidence || 0` is the
confidence itself). -/
def calculateRhythmicScore (beatData : BeatData)
    (features : AdvancedAudioFeatures) : ℚ :=
  beatData.confidence * (7/10) + features.percussiveRatio * (3/10)

/-- `GenreClassifier.calculateTonalStability`. -/
def calculateTonalStability (chroma : List ℚ) : ℚ :=
  let maxChroma := listMax chroma
  let chromaSum := chroma.sum
  if 0 < chromaSum then maxChroma / chromaSum else 0

/-- `GenreClassifier.calculateMelodicScore`. -/
def calculateMelodicScore (features : AdvancedAudioFeatures) : ℚ :=
  features.harmonicRatio * (6/10) +
    calculateTonalStability features.chroma * (4/10)

/-- `GenreClassifier.getSecondaryGenres`. -/
def getSecondaryGenres (c : GenreCharacteristics) : List String :=
  ((if (1 : ℚ)/2 < c.electronic then ["electronic"] else []) ++
   (if (1 : ℚ)/2 < c.acoustic then ["acoustic"] else []) ++
   (if (1 : ℚ)/2 < c.rhythmic then ["rhythmic"] else []) ++
   (if (1 : ℚ)/2 < c.melodic then ["melodic"] else [])).take 3

/-- `GenreClassifier.classify`. -/
def classify (M : JsMath) (features : AdvancedAudioFeatures)
    (audioData : AudioAnalysisData) (beatData : BeatData) :
    GenreClassification :=
  let characteristics : GenreCharacteristics :=
    { electronic := calculateElectronicScore features audioData
      acoustic := calculateAcousticScore features
      vocal := calculateVocalScore M features
      instrumental := calculateInstrumentalScore M features
      rhythmic := calculateRhythmicScore beatData features
      melodic := calculateMelodicScore features }
  let pc : String × ℚ :=
    if (7 : ℚ)/10 < characteristics.electronic ∧
        (6 : ℚ)/10 < characteristics.rhythmic then
      ("electronic", (characteristics.electronic + characteristics.rhythmic) / 2)
    else if (6 : ℚ)/10 < characteristics.acoustic ∧
        (5 : ℚ)/10 < characteristics.melodic then
      ("folk", (characteristics.acoustic + characteristics.melodic) / 2)
    else if (8 : ℚ)/10 < characteristics.rhythmic ∧ 120 < beatData.tempo then
      ("dance", characteristics.rhythmic)
    else if (7 : ℚ)/10 < characteristics.instrumental ∧
        (6 : ℚ)/10 < characteristics.melodic then
      ("ambient", (characteristics.instrumental + characteristics.melodic) / 2)
    else ("unknown", 0)
  { primary := pc.1
    confidence := pc.2
    secondary := getSecondaryGenres characteristics
    characteristics := characteristics }

/-- `generateMusicCharacteristics` (`x || d` on numbers reads `d` exactly when
`x` is 0). -/
def generateMusicCharacteristics (M : JsMath) (audioData : AudioAnalysisData)
    (beatData : BeatData) (advancedFeatures : AdvancedAudioFeatures) :
    MusicCharacteristics :=
  let genre := classify M advancedFeatures audioData beatData
  { tempo := if beatData.tempo = 0 then 120 else beatData.tempo
    energy := (audioData.bass + audioData.mid + audioData.treble) / 3
    valence := calculateValence advancedFeatures audioData
    danceability := calculateDanceability beatData advancedFeatures
    acousticness := calculateAcousticness advancedFeatures
    instrumentalness := calculateInstrumentalness M advancedFeatures
    genre := genre.primary
    mood := detectMood advancedFeatures audioData
    timeSignature := if beatData.timeSignature = 0 then 4
      else beatData.timeSignature
    key := detectKey advancedFeatures.chroma }

/-! ### The composed per-tick pipeline, as wired in the components
(`Morphing3DImageEffects.tsx`): frontend band averages, then
`AdvancedBeatDetector.analyze`, then `analyzeAdvancedFeatures`, then
`generateMusicCharacteristics`. -/

/-- Detector state plus the analyzer's `analysisHistory`. -/
structure PipelineState where
  det : DetectorState
  hist : List AdvancedAudioFeatures
deriving Repr, DecidableEq

/-- One pipeline tick.  The `beat`/`tempo` fields of `AudioAnalysisData` come
from the legacy frontend detector, which the advanced pipeline never reads;
they are filled with defaults here. -/
def pipelineTick (M : JsMath) (ctxSampleRate : ℚ) (ps : PipelineState)
    (freqData timeData : List ℕ) (now : ℚ) :
    (BeatData × MusicCharacteristics) × PipelineState :=
  let bass := getFrequencyBandAverage ctxSampleRate freqData 0 60
  let mid := getFrequencyBandAverage ctxSampleRate freqData 60 250
  let treble := getFrequencyBandAverage ctxSampleRate freqData 250 500
  let volume := M.sqrt
    ((timeData.map (fun (v : ℕ) => (((v : ℚ) - 128) / 128) ^ 2)).sum /
      (timeData.length : ℚ))
  let audioData : AudioAnalysisData :=
    { frequencyData := freqData, timeData := timeData, volume := volume,
      bass := bass, mid := mid, treble := treble, beat := false, tempo := 0 }
  let r := analyze M.sqrt ps.det freqData timeData bass mid treble now
  let f := analyzeAdvancedFeatures M ps.hist r.1 timeData freqData
  let mc := generateMusicCharacteristics M audioData r.1 f.1
  ((r.1, mc), ⟨r.2, f.2⟩)

/-- Run the pipeline over all-zero frequency and time arrays (of sizes `n` and
`m`) at the given tick times. -/
def runSilent (M : JsMath) (ctxSampleRate : ℚ) (n m : ℕ) :
    PipelineState → List ℚ →
    List (BeatData × MusicCharacteristics) × PipelineState
  | ps, [] => ([], ps)
  | ps, t :: rest =>
    let r := pipelineTick M ctxSampleRate ps (List.replicate n 0)
      (List.replicate m 0) t
    let rr := runSilent M ctxSampleRate n m r.2 rest
    (r.1 :: rr.1, rr.2)

/-- Freshly constructed pipeline. -/
def initPipeline : PipelineState := ⟨initDetector 44100 1024, []⟩

/-- An inert output pair, used only as a `getD` default. -/
def dummyOutput : BeatData × MusicCharacteristics :=
  (⟨false, 0, 0, 0, 0, 0⟩, ⟨0, 0, 0, 0, 0, 0, "", "", 0, ""⟩)

/-- Trivial instantiation of the abstract `Math` functions, used by witnesses
and counterexamples whose truth does not depend on their values. -/
def M0 : JsMath := ⟨fun _ => 0, fun _ => 0, fun _ => 0, fun _ => 0, fun _ => 0⟩

/-! ### Spec-side formulations (written from the specification text, for
comparison against the source-derived definitions) -/

/-- The last 10 entries of a history (spec: "take the last 10 energy
samples"). -/
def last10 (l : List ℚ) : List ℚ := l.drop (l.length - 10)

/-- Spec: mean of the last 10 energy samples (`localAverage`). -/
def specLocalAverage (l : List ℚ) : ℚ := listMean (last10 l)

/-- Spec: variance of the last 10 energy samples. -/
def specVariance (l : List ℚ) : ℚ :=
  listMean ((last10 l).map (fun v => (v - specLocalAverage l) ^ 2))

/-- Spec criterion 1: `energy / (localAverage + epsilon)` exceeds
`1.3 + sqrt(variance)`. -/
def specEnergyCriterion (s : ℚ → ℚ) (l : List ℚ) (energy : ℚ) : Prop :=
  energyThreshold + s (specVariance l) < energy / (specLocalAverage l + 1/1000)

/-- Spec criterion 2: at least 300 ms elapsed since the last accepted beat. -/
def specTimingCriterion (lastBeat now : ℚ) : Prop :=
  minBeatInterval ≤ now - lastBeat

/-- Spec criterion 3: the most recent bass-history sample exceeds 1.2 times
the mean of the bass history. -/
def specBassCriterion (bassH : List ℚ) : Prop :=
  listMean bassH * (12/10) < bassH.getLastD 0

/-- C3 as claimed: the claim's tempo procedure, discarding intervals deviating
from the median by MORE than 30 percent (so an interval deviating by exactly
30 percent is kept). -/
def claimTempoValue (timestamps tempoHistory : List ℚ) : ℚ :=
  let intervals := (List.range' 1 (timestamps.length - 1)).map
    (fun i => timestamps.getD i 0 - timestamps.getD (i - 1) 0)
  let m := median intervals
  let survivors := intervals.filter (fun x => |x - m| ≤ m * (3/10))
  let newTempo : ℚ := (jsRound (60000 / listMean survivors) : ℤ)
  let lastTempo := tempoHistory.getLastD newTempo
  let smoothed : ℚ := (jsRound (lastTempo * (9/10) + newTempo * (1/10)) : ℤ)
  max 60 (min 200 smoothed)

/-- C3 amended: intervals deviating from the median by 30 percent OR MORE are
discarded; when no interval survives the tempo is 120 and the history is not
updated. -/
def amendedTempo (timestamps tempoHistory : List ℚ) : ℚ :=
  let intervals := (List.range' 1 (timestamps.length - 1)).map
    (fun i => timestamps.getD i 0 - timestamps.getD (i - 1) 0)
  let m := median intervals
  let survivors := intervals.filter (fun x => |x - m| < m * (3/10))
  if survivors = [] then 120
  else
    let newTempo : ℚ := (jsRound (60000 / listMean survivors) : ℤ)
    let lastTempo := tempoHistory.getLastD newTempo
    let smoothed : ℚ := (jsRound (lastTempo * (9/10) + newTempo * (1/10)) : ℤ)
    max 60 (min 200 smoothed)

/-- C3 amended: the tempo history resulting from one accepted-beat tick. -/
def amendedTempoHistory (timestamps tempoHistory : List ℚ) : List ℚ :=
  let intervals := (List.range' 1 (timestamps.length - 1)).map
    (fun i => timestamps.getD i 0 - timestamps.getD (i - 1) 0)
  let m := median intervals
  let survivors := intervals.filter (fun x => |x - m| < m * (3/10))
  if survivors = [] then tempoHistory
  else pushShift 10 tempoHistory (amendedTempo timestamps tempoHistory)

/-- C8 as claimed: the SUM (not the mean) over the first `min(length,128)`
bins of `max(0, current[i] - previousMfcc[i])`, baseline 0 past the MFCC
vector's length. -/
def claimFluxValue (prevMfcc : List ℚ) (freq : List ℕ) : ℚ :=
  ((List.range (min freq.length 128)).map (fun i =>
    max 0 ((freq.getD i 0 : ℚ) / 255 -
      (if i < prevMfcc.length then prevMfcc.getD i 0 else 0)))).sum

/-- Concrete detector state for the C3 boundary counterexample: four recorded
beat timestamps whose inter-beat intervals are 500, 500 and 650 ms (650
deviates from the median 500 by exactly 30 percent). -/
def stC3 : DetectorState :=
  { initDetector 44100 1024 with
      beatHistory := [1000, 1500, 2000, 2650]
      lastBeatTime := 2650 }

/-- Concrete spectrum for the C5 counterexample: all energy in the top bin of
a 4-bin spectrum (bin frequency 16537.5 Hz, far above the 5000 Hz used to
normalise the spectral centroid). -/
def freqC5 : List ℕ := [0, 0, 0, 255]

/-- Arbitrary valid band data for the C5 counterexample. -/
def audio0 : AudioAnalysisData := ⟨freqC5, [], 0, 0, 0, 0, false, 0⟩

/-- Arbitrary valid beat data for the C5 counterexample. -/
def beat0 : BeatData := ⟨false, 0, 120, 4, 0, 0⟩

/-- Synthetic spectrum for C7: 2205 bins at 44100 Hz put every bin at a
multiple of 10 Hz; energy sits only at 440, 880, 1320, 1760 and 3520 Hz —
harmonics 1, 2, 3, 4 and 8 of A4 (the octaves of A plus its perfect fifth E,
a major-scale relative). -/
def freqA : List ℕ := (List.range 2205).map (fun i =>
  if i = 44 ∨ i = 88 ∨ i = 132 ∨ i = 176 ∨ i = 352 then 200 else 0)

/-- Concrete `Math` instantiation for the C7 witness: `log2` takes its true
values at the five ratios that carry energy, 0 elsewhere. -/
def M7 : JsMath :=
  { sqrt := fun _ => 0
    log := fun _ => 0
    log2 := fun x =>
      if x = 2 then 1 else if x = 3 then 8/5 else
      if x = 4 then 2 else if x = 8 then 3 else 0
    log10 := fun _ => 0
    pow10 := fun _ => 0 }

/-- C8 counterexample input: a previous-tick features record whose MFCC
vector is all zeros. -/
def prevC8 : AdvancedAudioFeatures := { noFeatures with mfcc := List.replicate 13 0 }

/-- Detector states reachable by feeding only silent frames: all recorded
energies and bass levels are zero, no tempo was ever recorded, and no beat was
ever accepted. -/
def silentInv (d : DetectorState) : Prop :=
  (∀ x ∈ d.energyHistory, x = 0) ∧ (∀ x ∈ d.bassHistory, x = 0) ∧
  d.tempoHistory = [] ∧ d.lastBeatTime = 0

/-- Two detector states with the same constructor configuration (the fields
never touched by `analyze`). -/
def sameConfig (a b : DetectorState) : Prop :=
  a.sampleRate = b.sampleRate ∧ a.bufferSize = b.bufferSize ∧
  a.beatInterval = b.beatInterval

/-- Concrete `Math.sqrt` stand-in used by witness instantiations: it is zero
except at the single square the witness input produces. -/
def sW : ℚ → ℚ := fun x => if x = 65025 then 255 else 0

/-- Concrete warmed-up detector state used by witness instantiations. -/
def stW : DetectorState :=
  { initDetector 44100 1024 with
      energyHistory := [0, 0, 0, 0, 0, 0, 0, 0, 0]
      bassHistory := [0] }

/-! ### Helper lemmas about the detector state transformers -/

theorem detectBeat_state (s : ℚ → ℚ) (st : DetectorState) (e t : ℚ) :
    (detectBeat s st e t).2.2.sampleRate = st.sampleRate ∧
    (detectBeat s st e t).2.2.bufferSize = st.bufferSize ∧
    (detectBeat s st e t).2.2.beatInterval = st.beatInterval ∧
    (detectBeat s st e t).2.2.energyHistory = st.energyHistory ∧
    (detectBeat s st e t).2.2.tempoHistory = st.tempoHistory ∧
    (detectBeat s st e t).2.2.bassHistory = st.bassHistory ∧
    (detectBeat s st e t).2.2.beatPhase = st.beatPhase := by
  simp only [detectBeat]
  split
  · simp
  · split <;> simp

theorem calculateTempo_state (st : DetectorState) (t : ℚ) (b : Bool) :
    (calculateTempo st t b).2.sampleRate = st.sampleRate ∧
    (calculateTempo st t b).2.bufferSize = st.bufferSize ∧
    (calculateTempo st t b).2.beatInterval = st.beatInterval ∧
    (calculateTempo st t b).2.energyHistory = st.energyHistory ∧
    (calculateTempo st t b).2.lastBeatTime = st.lastBeatTime ∧
    (calculateTempo st t b).2.bassHistory = st.bassHistory ∧
    (calculateTempo st t b).2.beatHistory = st.beatHistory ∧
    (calculateTempo st t b).2.beatPhase = st.beatPhase ∧
    (calculateTempo st t b).2.rhythmPatterns = st.rhythmPatterns ∧
    (calculateTempo st t b).2.patternBuffer = st.patternBuffer := by
  simp only [calculateTempo]
  split
  · simp
  · split <;> simp

theorem updateBeatPhase_state (st : DetectorState) (t tempo : ℚ) :
    (updateBeatPhase st t tempo).sampleRate = st.sampleRate ∧
    (updateBeatPhase st t tempo).bufferSize = st.bufferSize ∧
    (updateBeatPhase st t tempo).beatInterval = st.beatInterval ∧
    (updateBeatPhase st t tempo).energyHistory = st.energyHistory ∧
    (updateBeatPhase st t tempo).lastBeatTime = st.lastBeatTime ∧
    (updateBeatPhase st t tempo).tempoHistory = st.tempoHistory ∧
    (updateBeatPhase st t tempo).bassHistory = st.bassHistory ∧
    (updateBeatPhase st t tempo).beatHistory = st.beatHistory ∧
    (updateBeatPhase st t tempo).rhythmPatterns = st.rhythmPatterns ∧
    (updateBeatPhase st t tempo).patternBuffer = st.patternBuffer := by
  simp only [updateBeatPhase]
  split <;> simp

theorem updateFrequencyHistories_state (st : DetectorState) (b m t : ℚ) :
    (updateFrequencyHistories st b m t).sampleRate = st.sampleRate ∧
    (updateFrequencyHistories st b m t).bufferSize = st.bufferSize ∧
    (updateFrequencyHistories st b m t).beatInterval = st.beatInterval ∧
    (updateFrequencyHistories st b m t).energyHistory = st.energyHistory ∧
    (updateFrequencyHistories st b m t).lastBeatTime = st.lastBeatTime ∧
    (updateFrequencyHistories st b m t).tempoHistory = st.tempoHistory ∧
    (updateFrequencyHistories st b m t).beatHistory = st.beatHistory ∧
    (updateFrequencyHistories st b m t).bassHistory =
      pushShift 20 st.bassHistory b :=
  ⟨rfl, rfl, rfl, rfl, rfl, rfl, rfl, rfl⟩

theorem updateRhythmPatterns_state (st : DetectorState) (b : Bool) :
    (updateRhythmPatterns st b).sampleRate = st.sampleRate ∧
    (updateRhythmPatterns st b).bufferSize = st.bufferSize ∧
    (updateRhythmPatterns st b).beatInterval = st.beatInterval ∧
    (updateRhythmPatterns st b).energyHistory = st.energyHistory ∧
    (updateRhythmPatterns st b).lastBeatTime = st.lastBeatTime ∧
    (updateRhythmPatterns st b).tempoHistory = st.tempoHistory ∧
    (updateRhythmPatterns st b).bassHistory = st.bassHistory ∧
    (updateRhythmPatterns st b).beatHistory = st.beatHistory ∧
    (updateRhythmPatterns st b).beatPhase = st.beatPhase := by
  simp only [updateRhythmPatterns, analyzeRhythmPatterns]
  split <;> simp

theorem calculateTempo_lastBeatTime (st : DetectorState) (t : ℚ) (b : Bool) :
    (calculateTempo st t b).2.lastBeatTime = st.lastBeatTime :=
  (calculateTempo_state st t b).2.2.2.2.1

theorem updateBeatPhase_lastBeatTime (st : DetectorState) (t tempo : ℚ) :
    (updateBeatPhase st t tempo).lastBeatTime = st.lastBeatTime :=
  (updateBeatPhase_state st t tempo).2.2.2.2.1

theorem updateRhythmPatterns_lastBeatTime (st : DetectorState) (b : Bool) :
    (updateRhythmPatterns st b).lastBeatTime = st.lastBeatTime :=
  (updateRhythmPatterns_state st b).2.2.2.2.1

/-- Per-tick behaviour of `lastBeatTime`: a tick that accepts a beat stamps the
current time (and the timing gate held); a tick that does not leaves it
unchanged. -/
theorem detectBeat_beat_facts (s : ℚ → ℚ) (st : DetectorState) (e t : ℚ) :
    ((detectBeat s st e t).1 = true →
      (detectBeat s st e t).2.2.lastBeatTime = t ∧
      st.lastBeatTime + minBeatInterval ≤ t) ∧
    ((detectBeat s st e t).1 = false →
      (detectBeat s st e t).2.2.lastBeatTime = st.lastBeatTime) := by
  simp only [detectBeat]
  split
  · simp
  · split
    · next h =>
      refine ⟨fun _ => ⟨rfl, ?_⟩, fun hf => by simp at hf⟩
      have h2 := h.2.1
      linarith
    · simp

/-- `analyze`-level version of `detectBeat_beat_facts`. -/
theorem analyze_lastBeatTime (s : ℚ → ℚ) (st : DetectorState)
    (freq timeD : List ℕ) (bass mid treble now : ℚ) :
    ((analyze s st freq timeD bass mid treble now).1.isBeat = true →
      (analyze s st freq timeD bass mid treble now).2.lastBeatTime = now ∧
      st.lastBeatTime + minBeatInterval ≤ now) ∧
    ((analyze s st freq timeD bass mid treble now).1.isBeat = false →
      (analyze s st freq timeD bass mid treble now).2.lastBeatTime =
        st.lastBeatTime) := by
  have hd := detectBeat_beat_facts s
    { updateFrequencyHistories st bass mid treble with
        energyHistory := pushShift historySize
          (updateFrequencyHistories st bass mid treble).energyHistory
          (calculateEnergy s freq) }
    (calculateEnergy s freq) now
  simp only [analyze, updateRhythmPatterns_lastBeatTime,
    updateBeatPhase_lastBeatTime, calculateTempo_lastBeatTime]
  simp only [updateFrequencyHistories] at hd ⊢
  exact hd

theorem acceptedTimes_cons (s : ℚ → ℚ) (st : DetectorState) (inp : TickInput)
    (rest : List TickInput) :
    acceptedTimes s st (inp :: rest) =
      (if (analyze s st inp.frequencyData inp.timeData inp.bass inp.mid
            inp.treble inp.time).1.isBeat
        then [inp.time] else []) ++
      acceptedTimes s (analyze s st inp.frequencyData inp.timeData inp.bass
        inp.mid inp.treble inp.time).2 rest := by
  simp only [acceptedTimes, runDetector]
  cases hb : (analyze s st inp.frequencyData inp.timeData inp.bass inp.mid
      inp.treble inp.time).1.isBeat <;>
    simp [hb, List.filter_cons]

theorem minBeatInterval_pos : (0 : ℚ) < minBeatInterval := by
  norm_num [minBeatInterval]

/-- Invariant run for the timing gate: every accepted time is at least one
gate beyond the incoming `lastBeatTime`, and accepted times are pairwise at
least one gate apart. -/
theorem acceptedTimes_gate (s : ℚ → ℚ) :
    ∀ (inputs : List TickInput) (st : DetectorState),
    (∀ t ∈ acceptedTimes s st inputs,
        st.lastBeatTime + minBeatInterval ≤ t) ∧
    (acceptedTimes s st inputs).Pairwise (fun a b => a + minBeatInterval ≤ b)
  | [], st => by simp [acceptedTimes, runDetector]
  | inp :: rest, st => by
    have hrec := acceptedTimes_gate s rest
      (analyze s st inp.frequencyData inp.timeData inp.bass inp.mid inp.treble
        inp.time).2
    have hfacts := analyze_lastBeatTime s st inp.frequencyData inp.timeData
      inp.bass inp.mid inp.treble inp.time
    rw [acceptedTimes_cons]
    cases hb : (analyze s st inp.frequencyData inp.timeData inp.bass inp.mid
        inp.treble inp.time).1.isBeat
    · have hlb := hfacts.2 hb
      rw [hlb] at hrec
      simpa using hrec
    · obtain ⟨heq, hge⟩ := hfacts.1 hb
      rw [heq] at hrec
      have hpos := minBeatInterval_pos
      simp only [hb, if_true, List.singleton_append]
      constructor
      · intro t ht
        rcases List.mem_cons.mp ht with h | h
        · rw [h]; exact hge
        · have := hrec.1 t h
          linarith
      · exact List.pairwise_cons.mpr ⟨fun b hbmem => hrec.1 b hbmem, hrec.2⟩

theorem sameConfig_trans {a b c : DetectorState} (h1 : sameConfig a b)
    (h2 : sameConfig b c) : sameConfig a c :=
  ⟨h1.1.trans h2.1, h1.2.1.trans h2.2.1, h1.2.2.trans h2.2.2⟩

theorem detectBeat_sameConfig (s : ℚ → ℚ) (st : DetectorState) (e t : ℚ) :
    sameConfig (detectBeat s st e t).2.2 st :=
  ⟨(detectBeat_state s st e t).1, (detectBeat_state s st e t).2.1,
    (detectBeat_state s st e t).2.2.1⟩

theorem calculateTempo_sameConfig (st : DetectorState) (t : ℚ) (b : Bool) :
    sameConfig (calculateTempo st t b).2 st :=
  ⟨(calculateTempo_state st t b).1, (calculateTempo_state st t b).2.1,
    (calculateTempo_state st t b).2.2.1⟩

theorem updateBeatPhase_sameConfig (st : DetectorState) (t tempo : ℚ) :
    sameConfig (updateBeatPhase st t tempo) st :=
  ⟨(updateBeatPhase_state st t tempo).1, (updateBeatPhase_state st t tempo).2.1,
    (updateBeatPhase_state st t tempo).2.2.1⟩

theorem updateRhythmPatterns_sameConfig (st : DetectorState) (b : Bool) :
    sameConfig (updateRhythmPatterns st b) st :=
  ⟨(updateRhythmPatterns_state st b).1, (updateRhythmPatterns_state st b).2.1,
    (updateRhythmPatterns_state st b).2.2.1⟩

theorem analyze_sameConfig (s : ℚ → ℚ) (st : DetectorState)
    (freq timeD : List ℕ) (bass mid treble now : ℚ) :
    sameConfig (analyze s st freq timeD bass mid treble now).2 st := by
  simp only [analyze]
  exact sameConfig_trans (updateRhythmPatterns_sameConfig _ _)
    (sameConfig_trans (updateBeatPhase_sameConfig _ _ _)
      (sameConfig_trans (calculateTempo_sameConfig _ _ _)
        (sameConfig_trans (detectBeat_sameConfig _ _ _ _) ⟨rfl, rfl, rfl⟩)))

theorem runDetector_sameConfig (s : ℚ → ℚ) :
    ∀ (inputs : List TickInput) (st : DetectorState),
    sameConfig (runDetector s st inputs).2 st
  | [], _ => ⟨rfl, rfl, rfl⟩
  | inp :: rest, st =>
    sameConfig_trans
      (runDetector_sameConfig s rest
        (analyze s st inp.frequencyData inp.timeData inp.bass inp.mid
          inp.treble inp.time).2)
      (analyze_sameConfig s st inp.frequencyData inp.timeData inp.bass inp.mid
        inp.treble inp.time)

theorem getLastD_mem_or {α : Type} (l : List α) (d : α) :
    l.getLastD d = d ∨ l.getLastD d ∈ l := by
  cases l with
  | nil => exact Or.inl rfl
  | cons x xs =>
    right
    rw [List.getLastD_cons]
    induction xs generalizing x with
    | nil => simp
    | cons y ys ih =>
      rw [List.getLastD_cons]
      exact List.mem_cons_of_mem _ (ih y)

theorem mem_pushShift {α : Type} {cap : ℕ} {l : List α} {a x : α}
    (h : x ∈ pushShift cap l a) : x ∈ l ∨ x = a := by
  simp only [pushShift] at h
  split at h
  · have := List.mem_of_mem_drop h
    simpa using this
  · simpa using h

theorem jsMod_div_bounds (a b : ℚ) (ha : 0 ≤ a) (hb : 0 < b) :
    0 ≤ jsMod a b / b ∧ jsMod a b / b < 1 := by
  have hq : 0 ≤ a / b := div_nonneg ha hb.le
  have hfr : jsMod a b / b = Int.fract (a / b) := by
    simp only [jsMod, jsTrunc, if_pos hq, Int.fract]
    field_simp
  rw [hfr]
  exact ⟨Int.fract_nonneg _, Int.fract_lt_one _⟩

/-- Nonnegativity of the population variance term used by `detectBeat`. -/
theorem var_nonneg (l : List ℚ) (a : ℚ) :
    0 ≤ (l.map (fun v => (v - a) ^ 2)).sum / (l.length : ℚ) := by
  apply div_nonneg
  · apply List.sum_nonneg
    intro x hx
    obtain ⟨v, -, rfl⟩ := List.mem_map.mp hx
    positivity
  · positivity

theorem detectBeat_conf_bounds (s : ℚ → ℚ) (Hs : ∀ x : ℚ, 0 ≤ x → 0 ≤ s x)
    (st : DetectorState) (e t : ℚ) :
    0 ≤ (detectBeat s st e t).2.1 ∧ (detectBeat s st e t).2.1 ≤ 1 := by
  simp only [detectBeat]
  split
  · norm_num
  · split
    · next hcrit =>
      have hratio := lt_of_le_of_lt
        (le_add_of_nonneg_right (Hs _ (var_nonneg _ _))) hcrit.1
      rw [energyThreshold] at hratio
      constructor
      · exact le_min (by norm_num) (by nlinarith)
      · exact min_le_left _ _
    · norm_num

theorem calculateTempo_bounds (st : DetectorState) (t : ℚ) (b : Bool)
    (hTH : ∀ x ∈ st.tempoHistory, 60 ≤ x ∧ x ≤ 200) :
    (60 ≤ (calculateTempo st t b).1 ∧ (calculateTempo st t b).1 ≤ 200) ∧
    (∀ x ∈ (calculateTempo st t b).2.tempoHistory, 60 ≤ x ∧ x ≤ 200) := by
  simp only [calculateTempo]
  split
  · refine ⟨?_, hTH⟩
    rcases getLastD_mem_or st.tempoHistory 120 with h | h
    · rw [h]; norm_num
    · exact hTH _ h
  · split
    · exact ⟨by norm_num, hTH⟩
    · constructor
      · constructor
        · exact le_max_left _ _
        · exact max_le (by norm_num) (min_le_left _ _)
      · intro x hx
        rcases mem_pushShift hx with h | h
        · exact hTH _ h
        · subst h
          exact ⟨le_max_left _ _, max_le (by norm_num) (min_le_left _ _)⟩

theorem updateBeatPhase_phase_bounds (st : DetectorState) (now tempo : ℚ)
    (h60 : 60 ≤ tempo) (hle : st.lastBeatTime ≤ now) :
    0 ≤ (updateBeatPhase st now tempo).beatPhase ∧
    (updateBeatPhase st now tempo).beatPhase < 1 := by
  simp only [updateBeatPhase]
  split
  · simp
  · have hd : (0:ℚ) < 60000 / tempo := div_pos (by norm_num) (by linarith)
    have hts : (0:ℚ) ≤ now - st.lastBeatTime := by linarith
    simpa using jsMod_div_bounds (now - st.lastBeatTime) (60000 / tempo) hts hd

theorem detectBeat_tempoHistory (s : ℚ → ℚ) (st : DetectorState) (e t : ℚ) :
    (detectBeat s st e t).2.2.tempoHistory = st.tempoHistory :=
  (detectBeat_state s st e t).2.2.2.2.1

theorem updateBeatPhase_tempoHistory (st : DetectorState) (t tempo : ℚ) :
    (updateBeatPhase st t tempo).tempoHistory = st.tempoHistory :=
  (updateBeatPhase_state st t tempo).2.2.2.2.2.1

theorem updateRhythmPatterns_tempoHistory (st : DetectorState) (b : Bool) :
    (updateRhythmPatterns st b).tempoHistory = st.tempoHistory :=
  (updateRhythmPatterns_state st b).2.2.2.2.2.1

theorem updateRhythmPatterns_beatPhase (st : DetectorState) (b : Bool) :
    (updateRhythmPatterns st b).beatPhase = st.beatPhase :=
  (updateRhythmPatterns_state st b).2.2.2.2.2.2.2.2

/-- One-tick bounds for the `detectBeat`/`calculateTempo`/`updateBeatPhase`/
`updateRhythmPatterns` chain that `analyze` performs after its history
updates. -/
theorem tick_bounds (s : ℚ → ℚ) (Hs : ∀ x : ℚ, 0 ≤ x → 0 ≤ s x)
    (st2 : DetectorState) (e now : ℚ)
    (hTH : ∀ x ∈ st2.tempoHistory, 60 ≤ x ∧ x ≤ 200)
    (hlb : st2.lastBeatTime ≤ now) :
    (0 ≤ (detectBeat s st2 e now).2.1 ∧ (detectBeat s st2 e now).2.1 ≤ 1) ∧
    (0 ≤ (updateRhythmPatterns (updateBeatPhase
        (calculateTempo (detectBeat s st2 e now).2.2 now
          (detectBeat s st2 e now).1).2 now
        (calculateTempo (detectBeat s st2 e now).2.2 now
          (detectBeat s st2 e now).1).1)
        (detectBeat s st2 e now).1).beatPhase ∧
      (updateRhythmPatterns (updateBeatPhase
        (calculateTempo (detectBeat s st2 e now).2.2 now
          (detectBeat s st2 e now).1).2 now
        (calculateTempo (detectBeat s st2 e now).2.2 now
          (detectBeat s st2 e now).1).1)
        (detectBeat s st2 e now).1).beatPhase < 1) ∧
    (60 ≤ (calculateTempo (detectBeat s st2 e now).2.2 now
        (detectBeat s st2 e now).1).1 ∧
      (calculateTempo (detectBeat s st2 e now).2.2 now
        (detectBeat s st2 e now).1).1 ≤ 200) ∧
    (∀ x ∈ (updateRhythmPatterns (updateBeatPhase
        (calculateTempo (detectBeat s st2 e now).2.2 now
          (detectBeat s st2 e now).1).2 now
        (calculateTempo (detectBeat s st2 e now).2.2 now
          (detectBeat s st2 e now).1).1)
        (detectBeat s st2 e now).1).tempoHistory, 60 ≤ x ∧ x ≤ 200) ∧
    ((updateRhythmPatterns (updateBeatPhase
        (calculateTempo (detectBeat s st2 e now).2.2 now
          (detectBeat s st2 e now).1).2 now
        (calculateTempo (detectBeat s st2 e now).2.2 now
          (detectBeat s st2 e now).1).1)
        (detectBeat s st2 e now).1).lastBeatTime = st2.lastBeatTime ∨
      (updateRhythmPatterns (updateBeatPhase
        (calculateTempo (detectBeat s st2 e now).2.2 now
          (detectBeat s st2 e now).1).2 now
        (calculateTempo (detectBeat s st2 e now).2.2 now
          (detectBeat s st2 e now).1).1)
        (detectBeat s st2 e now).1).lastBeatTime = now) := by
  have hTH2 : ∀ x ∈ (detectBeat s st2 e now).2.2.tempoHistory,
      60 ≤ x ∧ x ≤ 200 := by
    rw [detectBeat_tempoHistory]
    exact hTH
  have htempo := calculateTempo_bounds (detectBeat s st2 e now).2.2 now
    (detectBeat s st2 e now).1 hTH2
  have hlb3 : (detectBeat s st2 e now).2.2.lastBeatTime = st2.lastBeatTime ∨
      (detectBeat s st2 e now).2.2.lastBeatTime = now := by
    have hfacts := detectBeat_beat_facts s st2 e now
    cases hb : (detectBeat s st2 e now).1
    · exact Or.inl (hfacts.2 hb)
    · exact Or.inr (hfacts.1 hb).1
  refine ⟨detectBeat_conf_bounds s Hs st2 e now, ?_, htempo.1, ?_, ?_⟩
  · rw [updateRhythmPatterns_beatPhase]
    apply updateBeatPhase_phase_bounds
    · exact htempo.1.1
    · rw [calculateTempo_lastBeatTime]
      rcases hlb3 with h | h
      · rw [h]; exact hlb
      · rw [h]
  · rw [updateRhythmPatterns_tempoHistory, updateBeatPhase_tempoHistory]
    exact htempo.2
  · rw [updateRhythmPatterns_lastBeatTime, updateBeatPhase_lastBeatTime,
      calculateTempo_lastBeatTime]
    exact hlb3

/-- One-tick output and state bounds for `analyze`. -/
theorem analyze_output_bounds (s : ℚ → ℚ) (Hs : ∀ x : ℚ, 0 ≤ x → 0 ≤ s x)
    (st : DetectorState) (freq timeD : List ℕ) (bass mid treble now : ℚ)
    (hTH : ∀ x ∈ st.tempoHistory, 60 ≤ x ∧ x ≤ 200)
    (hlb : st.lastBeatTime ≤ now) :
    (0 ≤ (analyze s st freq timeD bass mid treble now).1.confidence ∧
      (analyze s st freq timeD bass mid treble now).1.confidence ≤ 1) ∧
    (0 ≤ (analyze s st freq timeD bass mid treble now).1.beatPhase ∧
      (analyze s st freq timeD bass mid treble now).1.beatPhase < 1) ∧
    (60 ≤ (analyze s st freq timeD bass mid treble now).1.tempo ∧
      (analyze s st freq timeD bass mid treble now).1.tempo ≤ 200) ∧
    (∀ x ∈ (analyze s st freq timeD bass mid treble now).2.tempoHistory,
      60 ≤ x ∧ x ≤ 200) ∧
    ((analyze s st freq timeD bass mid treble now).2.lastBeatTime =
        st.lastBeatTime ∨
      (analyze s st freq timeD bass mid treble now).2.lastBeatTime = now) :=
  tick_bounds s Hs
    { updateFrequencyHistories st bass mid treble with
        energyHistory := pushShift historySize
          (updateFrequencyHistories st bass mid treble).energyHistory
          (calculateEnergy s freq) }
    (calculateEnergy s freq) now hTH hlb

/-! ### Claim theorems -/

/-- C1: on every `analyze` call, if the energy history (after the current push)
has fewer than 10 samples then `isBeat` is false and `confidence` is 0
regardless of the input; otherwise `isBeat` is true exactly when the three
criteria hold: the energy ratio exceeds the adaptive threshold
`1.3 + sqrt(variance)`, at least 300 ms elapsed since the last accepted beat,
and the last bass-history sample exceeds 1.2 times the bass-history mean. -/
theorem C1_analyze_beat_decision (s : ℚ → ℚ) (st : DetectorState)
    (freq timeD : List ℕ) (bass mid treble now : ℚ) :
    ((pushShift historySize st.energyHistory (calculateEnergy s freq)).length
        < 10 →
      (analyze s st freq timeD bass mid treble now).1.isBeat = false ∧
      (analyze s st freq timeD bass mid treble now).1.confidence = 0) ∧
    (10 ≤ (pushShift historySize st.energyHistory
        (calculateEnergy s freq)).length →
      ((analyze s st freq timeD bass mid treble now).1.isBeat = true ↔
        specEnergyCriterion s
          (pushShift historySize st.energyHistory (calculateEnergy s freq))
          (calculateEnergy s freq) ∧
        specTimingCriterion st.lastBeatTime now ∧
        specBassCriterion (pushShift 20 st.bassHistory bass))) := by
  simp only [analyze, detectBeat, updateFrequencyHistories, specEnergyCriterion,
    specTimingCriterion, specBassCriterion, specVariance, specLocalAverage,
    last10, listMean, List.length_map]
  split
  · next hlt => exact ⟨fun _ => by simp, fun h10 => absurd hlt (by omega)⟩
  · next hge =>
    refine ⟨fun hlt => absurd hlt hge, fun _ => ?_⟩
    split
    · next hcrit => simpa using hcrit
    · next hcrit => simpa using hcrit

/-- C1 witness: a cold-start call (one energy sample) yields no beat and zero
confidence. -/
theorem C1_witness :
    (analyze (fun _ => 0) (initDetector 44100 1024) [0] [0] 0 0 0 0).1.isBeat
      = false ∧
    (analyze (fun _ => 0) (initDetector 44100 1024) [0] [0] 0 0 0
      0).1.confidence = 0 :=
  (C1_analyze_beat_decision (fun _ => 0) (initDetector 44100 1024) [0] [0]
    0 0 0 0).1 (by norm_num [initDetector, pushShift, historySize])

/-- C2: over any sequence of `analyze` calls on one detector instance, the
wall-clock timestamps of accepted beats are pairwise at least
`minBeatInterval` (300 ms) apart. -/
theorem C2_timing_gate (s : ℚ → ℚ) (sampleRate bufferSize : ℚ)
    (inputs : List TickInput) :
    (acceptedTimes s (initDetector sampleRate bufferSize) inputs).Pairwise
      (fun a b => a + minBeatInterval ≤ b) :=
  (acceptedTimes_gate s inputs (initDetector sampleRate bufferSize)).2

/-- C9: `reset` is idempotent; resetting a detector that evolved from a fresh
instance restores exactly the freshly-constructed state; and the first frame
after a reset reproduces the cold-start output (no beat, confidence 0, tempo
120, phase 0, time signature 4). -/
theorem C9_reset_idempotence :
    (∀ st : DetectorState, reset (reset st) = reset st) ∧
    (∀ (s : ℚ → ℚ) (sampleRate bufferSize : ℚ) (inputs : List TickInput),
      reset (runDetector s (initDetector sampleRate bufferSize) inputs).2 =
        initDetector sampleRate bufferSize) ∧
    (∀ (s : ℚ → ℚ) (st : DetectorState) (freq timeD : List ℕ)
        (bass mid treble now : ℚ),
      (analyze s (reset st) freq timeD bass mid treble now).1.isBeat = false ∧
      (analyze s (reset st) freq timeD bass mid treble now).1.confidence = 0 ∧
      (analyze s (reset st) freq timeD bass mid treble now).1.tempo = 120 ∧
      (analyze s (reset st) freq timeD bass mid treble now).1.beatPhase = 0 ∧
      (analyze s (reset st) freq timeD bass mid treble now).1.timeSignature
        = 4) := by
  refine ⟨fun st => rfl, fun s sampleRate bufferSize inputs => ?_, ?_⟩
  · have hc := runDetector_sameConfig s inputs
      (initDetector sampleRate bufferSize)
    obtain ⟨h1, h2, h3⟩ := hc
    simp only [initDetector] at h1 h2 h3
    simp [reset, initDetector, h1, h2, h3]
  · intro s st freq timeD bass mid treble now
    refine ⟨?_, ?_, ?_, ?_, ?_⟩ <;>
      simp [analyze, reset, detectBeat, calculateTempo, updateBeatPhase,
        updateRhythmPatterns, updateFrequencyHistories, estimateTimeSignature,
        pushShift, historySize, List.getLastD]

/-- C10: whenever `analyze` reports a beat, the returned confidence lies in
`(0.15, 1]`: acceptance forces the energy ratio above the adaptive threshold,
which is at least 1.3, so `(ratio - 1) * 0.5` exceeds 0.15. -/
theorem C10_confidence_on_beat (s : ℚ → ℚ) (Hs : ∀ x : ℚ, 0 ≤ x → 0 ≤ s x)
    (st : DetectorState) (freq timeD : List ℕ) (bass mid treble now : ℚ)
    (hb : (analyze s st freq timeD bass mid treble now).1.isBeat = true) :
    3/20 < (analyze s st freq timeD bass mid treble now).1.confidence ∧
    (analyze s st freq timeD bass mid treble now).1.confidence ≤ 1 := by
  revert hb
  simp only [analyze, detectBeat]
  split
  · intro h; exact absurd h (by simp)
  · split
    · next hcrit =>
      intro _
      have hratio := lt_of_le_of_lt
        (le_add_of_nonneg_right (Hs _ (var_nonneg _ _))) hcrit.1
      have hratio' : (13/10 : ℚ) <
          calculateEnergy s freq /
            (listMean (List.drop
              ((pushShift historySize
                (updateFrequencyHistories st bass mid treble).energyHistory
                (calculateEnergy s freq)).length - 10)
              (pushShift historySize
                (updateFrequencyHistories st bass mid treble).energyHistory
                (calculateEnergy s freq))) + 1/1000) := by
        simpa [energyThreshold] using hratio
      constructor
      · exact lt_min (by norm_num) (by linarith)
      · exact min_le_left _ _
    · intro h; exact absurd h (by simp)

/-- C10 witness: a concrete warmed-up state and spike input on which a beat is
accepted, with confidence in `(0.15, 1]`. -/
theorem C10_witness :
    3/20 < (analyze sW stW [255] [] 1 0 0 1000).1.confidence ∧
    (analyze sW stW [255] [] 1 0 0 1000).1.confidence ≤ 1 :=
  C10_confidence_on_beat sW
    (fun x hx => by dsimp only [sW]; split <;> norm_num) stW [255] [] 1 0 0 1000
    (by norm_num [analyze, detectBeat, calculateEnergy, sW, stW, initDetector,
      updateFrequencyHistories, pushShift, historySize, listMean,
      energyThreshold, minBeatInterval, List.getLastD])

theorem chain_le_of_le {b a : ℚ} {l : List ℚ} (hba : b ≤ a)
    (h : List.Chain' (· ≤ ·) (a :: l)) : List.Chain' (· ≤ ·) (b :: l) := by
  rcases l with _ | ⟨c, l⟩
  · simp
  · rw [List.chain'_cons] at h ⊢
    exact ⟨le_trans hba h.1, h.2⟩

theorem C4_aux (s : ℚ → ℚ) (Hs : ∀ x : ℚ, 0 ≤ x → 0 ≤ s x) :
    ∀ (inputs : List TickInput) (st : DetectorState),
    List.Chain' (· ≤ ·) (st.lastBeatTime :: inputs.map (fun i => i.time)) →
    (∀ x ∈ st.tempoHistory, 60 ≤ x ∧ x ≤ 200) →
    ∀ bd ∈ (runDetector s st inputs).1,
      (0 ≤ bd.confidence ∧ bd.confidence ≤ 1) ∧
      (0 ≤ bd.beatPhase ∧ bd.beatPhase < 1) ∧
      (60 ≤ bd.tempo ∧ bd.tempo ≤ 200)
  | [], st => by
    intro _ _ bd hbd
    simp [runDetector] at hbd
  | inp :: rest, st => by
    intro hchain hTH bd hbd
    simp only [List.map_cons] at hchain
    have hlb : st.lastBeatTime ≤ inp.time := (List.chain'_cons.mp hchain).1
    have hsub := (List.chain'_cons.mp hchain).2
    have hbounds := analyze_output_bounds s Hs st inp.frequencyData
      inp.timeData inp.bass inp.mid inp.treble inp.time hTH hlb
    simp only [runDetector, List.mem_cons] at hbd
    rcases hbd with rfl | hmem
    · exact ⟨hbounds.1, hbounds.2.1, hbounds.2.2.1⟩
    · refine C4_aux s Hs rest
        (analyze s st inp.frequencyData inp.timeData inp.bass inp.mid
          inp.treble inp.time).2 ?_ hbounds.2.2.2.1 bd hmem
      rcases hbounds.2.2.2.2 with h | h
      · rw [h]
        exact chain_le_of_le hlb hsub
      · rw [h]
        exact hsub

/-- C4: under a non-decreasing, nonnegative wall clock, every `analyze` output
has `confidence` in `[0,1]`, `beatPhase` in `[0,1)` and `tempo` in
`[60,200]`. -/
theorem C4_range_invariants (s : ℚ → ℚ) (Hs : ∀ x : ℚ, 0 ≤ x → 0 ≤ s x)
    (sampleRate bufferSize : ℚ) (inputs : List TickInput)
    (hmono : List.Chain' (· ≤ ·) (inputs.map (fun i => i.time)))
    (hnn : ∀ i ∈ inputs, 0 ≤ i.time) :
    ∀ bd ∈ (runDetector s (initDetector sampleRate bufferSize) inputs).1,
      (0 ≤ bd.confidence ∧ bd.confidence ≤ 1) ∧
      (0 ≤ bd.beatPhase ∧ bd.beatPhase < 1) ∧
      (60 ≤ bd.tempo ∧ bd.tempo ≤ 200) := by
  apply C4_aux s Hs inputs (initDetector sampleRate bufferSize) ?_ ?_
  · show List.Chain' (· ≤ ·) (0 :: inputs.map (fun i => i.time))
    cases inputs with
    | nil => simp
    | cons a l =>
      simp only [List.map_cons]
      rw [List.chain'_cons]
      refine ⟨hnn a (by simp), ?_⟩
      simpa using hmono
  · intro x hx
    simp [initDetector] at hx

/-- C4 witness: a concrete one-tick run at time 0 with silent input. -/
theorem C4_witness :
    (0 ≤ (analyze (fun _ => 0) (initDetector 44100 1024)
        [0] [0] 0 0 0 0).1.confidence ∧
      (analyze (fun _ => 0) (initDetector 44100 1024)
        [0] [0] 0 0 0 0).1.confidence ≤ 1) ∧
    (0 ≤ (analyze (fun _ => 0) (initDetector 44100 1024)
        [0] [0] 0 0 0 0).1.beatPhase ∧
      (analyze (fun _ => 0) (initDetector 44100 1024)
        [0] [0] 0 0 0 0).1.beatPhase < 1) ∧
    (60 ≤ (analyze (fun _ => 0) (initDetector 44100 1024)
        [0] [0] 0 0 0 0).1.tempo ∧
      (analyze (fun _ => 0) (initDetector 44100 1024)
        [0] [0] 0 0 0 0).1.tempo ≤ 200) :=
  C4_range_invariants (fun _ => 0) (fun x _ => le_refl 0) 44100 1024
    [⟨[0], [0], 0, 0, 0, 0⟩] (by simp)
    (by
      intro i hi
      simp only [List.mem_singleton] at hi
      subst hi
      norm_num)
    (analyze (fun _ => 0) (initDetector 44100 1024) [0] [0] 0 0 0 0).1
    (by
      rw [show (runDetector (fun _ => 0) (initDetector 44100 1024)
          [⟨[0], [0], 0, 0, 0, 0⟩]).1 =
          [(analyze (fun _ => 0) (initDetector 44100 1024)
            [0] [0] 0 0 0 0).1] from rfl]
      exact List.mem_cons_self _ _)

/-- C8 counterexample: on a 4-bin spectrum with one full bin, the code returns
the mean `1/4` while the claim's sum is `1`. -/
theorem C8_counterexample :
    calculateSpectralFlux [prevC8] [255, 0, 0, 0] = 1/4 ∧
    claimFluxValue (List.replicate 13 0) [255, 0, 0, 0] = 1 ∧
    ((1 : ℚ)/4) ≠ 1 := by
  refine ⟨?_, ?_, by norm_num⟩ <;>
    norm_num [calculateSpectralFlux, claimFluxValue, prevC8, noFeatures,
      List.getLastD, List.replicate, List.range_succ]

/-- C8 amended: the spectral flux is the MEAN over the first
`min(length, 128)` bins of `max(0, current[i] - previous.mfcc[i])` (baseline 0
past the MFCC vector), i.e. the claim's sum divided by the bin count; 0 on the
first tick. -/
theorem C8_flux_amended (history : List AdvancedAudioFeatures)
    (freq : List ℕ) :
    calculateSpectralFlux history freq =
      if history.length = 0 then 0
      else claimFluxValue (history.getLastD noFeatures).mfcc freq /
        ((min freq.length 128 : ℕ) : ℚ) := rfl

theorem jsRound_of_bounds (q : ℚ) (n : ℤ) (hl : (n : ℚ) ≤ q + 1/2)
    (hu : q + 1/2 < n + 1) : jsRound q = n := by
  rw [jsRound]
  exact Int.floor_eq_iff.mpr ⟨hl, hu⟩

/-- C3 counterexample: with recorded beat timestamps 1000, 1500, 2000, 2650
(intervals 500, 500, 650; the median is 500 and 650 deviates by exactly 30
percent), the code discards the boundary interval and returns tempo 120,
while the claim's procedure keeps it and yields 109. -/
theorem C3_counterexample :
    (calculateTempo stC3 2650 true).1 = 120 ∧
    claimTempoValue stC3.beatHistory stC3.tempoHistory = 109 ∧
    (120 : ℚ) ≠ 109 := by
  have h120 : jsRound (120 : ℚ) = 120 :=
    jsRound_of_bounds _ _ (by norm_num) (by norm_num)
  have h109 : jsRound (1200/11 : ℚ) = 109 :=
    jsRound_of_bounds _ _ (by norm_num) (by norm_num)
  have h109b : jsRound (109 : ℚ) = 109 :=
    jsRound_of_bounds _ _ (by norm_num) (by norm_num)
  refine ⟨?_, ?_, by norm_num⟩ <;>
    norm_num [calculateTempo, claimTempoValue, stC3, initDetector, median,
      listMean, List.range_succ, List.insertionSort, List.orderedInsert,
      tempoSmoothingFactor, List.getLastD, pushShift, h120, h109, h109b,
      List.range']

/-- C3 amended: on an accepted-beat tick with at least two recorded beat
timestamps, the tempo and updated history follow the claim's procedure with
intervals deviating from the median by 30 percent OR MORE discarded, tempo
120 and no history push when nothing survives, and integer rounding of the
BPM and smoothing steps; on every other tick the last smoothed tempo (120 if
none) is returned and the state is unchanged. -/
theorem C3_tempo_amended (st : DetectorState) (now : ℚ) (b : Bool) :
    ((b = true ∧ 2 ≤ st.beatHistory.length) →
      (calculateTempo st now b).1 =
        amendedTempo st.beatHistory st.tempoHistory ∧
      (calculateTempo st now b).2 = { st with
        tempoHistory := amendedTempoHistory st.beatHistory st.tempoHistory }) ∧
    ((b = false ∨ st.beatHistory.length < 2) →
      (calculateTempo st now b).1 = st.tempoHistory.getLastD 120 ∧
      (calculateTempo st now b).2 = st) := by
  have hsm : (1 : ℚ) - 9/10 = 1/10 := by norm_num
  constructor
  · rintro ⟨rfl, hlen⟩
    have hcond : ¬(true = false ∨ st.beatHistory.length < 2) := by
      push_neg
      exact ⟨by simp, by omega⟩
    simp only [calculateTempo, amendedTempo, amendedTempoHistory,
      tempoSmoothingFactor, hsm, if_neg hcond, listMean]
    split
    · next hlen0 =>
      rw [if_pos (List.length_eq_zero.mp hlen0),
        if_pos (List.length_eq_zero.mp hlen0)]
      exact ⟨rfl, rfl⟩
    · next hlen0 =>
      have hne : ¬((List.range' 1 (st.beatHistory.length - 1)).map
          (fun i => st.beatHistory.getD i 0 - st.beatHistory.getD (i - 1) 0)).filter
            (fun x => decide (|x - median ((List.range' 1 (st.beatHistory.length - 1)).map
              (fun i => st.beatHistory.getD i 0 - st.beatHistory.getD (i - 1) 0))| <
              median ((List.range' 1 (st.beatHistory.length - 1)).map
                (fun i => st.beatHistory.getD i 0 - st.beatHistory.getD (i - 1) 0)) * (3/10))) = [] := by
        intro h
        exact hlen0 (by rw [h]; rfl)
      rw [if_neg hne, if_neg hne]
      exact ⟨rfl, rfl⟩
  · intro h
    unfold calculateTempo
    rw [if_pos h]
    exact ⟨rfl, rfl⟩

/-- C3 witness: the accepted-beat branch of the amended statement at the
concrete state of the counterexample. -/
theorem C3_witness :
    (calculateTempo stC3 2650 true).1 =
      amendedTempo stC3.beatHistory stC3.tempoHistory ∧
    (calculateTempo stC3 2650 true).2 = { stC3 with
      tempoHistory := amendedTempoHistory stC3.beatHistory stC3.tempoHistory } :=
  (C3_tempo_amended stC3 2650 true).1 (by constructor <;> simp [stC3])

theorem getD_nonneg {l : List ℚ} (h : ∀ x ∈ l, 0 ≤ x) (n : ℕ) :
    0 ≤ l.getD n 0 := by
  induction l generalizing n with
  | nil => simp
  | cons x xs ih =>
    cases n with
    | zero => simpa using h x (by simp)
    | succ n =>
      simp only [List.getD_cons_succ]
      exact ih (fun y hy => h y (List.mem_cons_of_mem _ hy)) n

theorem set_getD_self (l : List ℚ) (n : ℕ) : l.set n (l.getD n 0) = l := by
  induction l generalizing n with
  | nil => simp
  | cons x xs ih =>
    cases n with
    | zero => simp
    | succ n =>
      simp only [List.set, List.getD_cons_succ]
      rw [ih]

theorem calculateSpectralCentroid_nonneg (freq : List ℕ) :
    0 ≤ calculateSpectralCentroid freq := by
  simp only [calculateSpectralCentroid, analyzerSampleRate]
  split
  · next h =>
    apply div_nonneg _ (le_of_lt h)
    apply List.sum_nonneg
    intro x hx
    obtain ⟨i, -, rfl⟩ := List.mem_map.mp hx
    positivity
  · exact le_refl 0

theorem calculateHarmonicRatio_nonneg (freq : List ℕ) :
    0 ≤ calculateHarmonicRatio freq := by
  simp only [calculateHarmonicRatio]
  split
  · next h =>
    apply div_nonneg _ (le_of_lt h)
    apply List.sum_nonneg
    intro x hx
    obtain ⟨i, -, rfl⟩ := List.mem_map.mp hx
    split
    · positivity
    · exact le_refl 0
  · exact le_refl 0

theorem chromaStep_nonneg (M : JsMath) (freq : List ℕ) (acc : List ℚ) (i : ℕ)
    (h : ∀ x ∈ acc, 0 ≤ x) : ∀ x ∈ chromaStep M freq acc i, 0 ≤ x := by
  intro y hy
  simp only [chromaStep] at hy
  split at hy
  · rcases List.mem_or_eq_of_mem_set hy with h1 | h1
    · exact h y h1
    · rw [h1]
      exact add_nonneg (getD_nonneg h _) (by positivity)
  · exact h y hy

theorem calculateChroma_nonneg (M : JsMath) (freq : List ℕ) :
    ∀ x ∈ calculateChroma M freq, 0 ≤ x := by
  have hfold : ∀ (is : List ℕ) (acc : List ℚ), (∀ x ∈ acc, 0 ≤ x) →
      ∀ x ∈ is.foldl (chromaStep M freq) acc, 0 ≤ x := by
    intro is
    induction is with
    | nil => intro acc h; simpa using h
    | cons i rest ih =>
      intro acc h
      rw [List.foldl_cons]
      exact ih _ (chromaStep_nonneg M freq acc i h)
  have hbase : ∀ x ∈ (List.range' 1 (freq.length - 1)).foldl
      (chromaStep M freq) (List.replicate 12 (0 : ℚ)), 0 ≤ x := by
    apply hfold
    intro x hx
    rw [List.eq_of_mem_replicate hx]
  intro x hx
  simp only [calculateChroma] at hx
  split at hx
  · next hsum =>
    obtain ⟨v, hv, rfl⟩ := List.mem_map.mp hx
    exact div_nonneg (hbase v hv) (le_of_lt hsum)
  · exact hbase x hx

theorem dotProduct_nonneg {a b : List ℚ} (ha : ∀ x ∈ a, 0 ≤ x)
    (hb : ∀ x ∈ b, 0 ≤ x) : 0 ≤ dotProduct a b := by
  unfold dotProduct
  apply List.sum_nonneg
  intro x hx
  obtain ⟨⟨u, v⟩, huv, rfl⟩ := List.mem_map.mp hx
  have hmem := List.of_mem_zip huv
  exact mul_nonneg (ha _ hmem.1) (hb _ hmem.2)

theorem getMajorKeyStrength_nonneg (chroma : List ℚ)
    (hc : ∀ x ∈ chroma, 0 ≤ x) : 0 ≤ getMajorKeyStrength chroma := by
  unfold getMajorKeyStrength
  apply div_nonneg
  · apply dotProduct_nonneg hc
    intro x hx
    fin_cases hx <;> norm_num
  · norm_num

/-- C5 amended: the synthesizer's bounded fields are clamped ABOVE by
construction (`Math.min(1, ...)`); `valence` is additionally nonnegative
because its three summands are, and `energy` lies in `[0,1]` only because the
input band values do — no construction clamps `danceability`, `acousticness`
or `instrumentalness` from below. -/
theorem C5_characteristic_ranges (M : JsMath) (audioData : AudioAnalysisData)
    (beatData : BeatData) (hist : List AdvancedAudioFeatures)
    (timeD freqD : List ℕ)
    (hb0 : 0 ≤ audioData.bass) (hb1 : audioData.bass ≤ 1)
    (hm0 : 0 ≤ audioData.mid) (hm1 : audioData.mid ≤ 1)
    (ht0 : 0 ≤ audioData.treble) (ht1 : audioData.treble ≤ 1) :
    (0 ≤ (generateMusicCharacteristics M audioData beatData
        (analyzeAdvancedFeatures M hist beatData timeD freqD).1).energy ∧
      (generateMusicCharacteristics M audioData beatData
        (analyzeAdvancedFeatures M hist beatData timeD freqD).1).energy ≤ 1) ∧
    (0 ≤ (generateMusicCharacteristics M audioData beatData
        (analyzeAdvancedFeatures M hist beatData timeD freqD).1).valence ∧
      (generateMusicCharacteristics M audioData beatData
        (analyzeAdvancedFeatures M hist beatData timeD freqD).1).valence ≤ 1) ∧
    (generateMusicCharacteristics M audioData beatData
      (analyzeAdvancedFeatures M hist beatData timeD freqD).1).danceability
        ≤ 1 ∧
    (generateMusicCharacteristics M audioData beatData
      (analyzeAdvancedFeatures M hist beatData timeD freqD).1).acousticness
        ≤ 1 ∧
    (generateMusicCharacteristics M audioData beatData
      (analyzeAdvancedFeatures M hist beatData timeD freqD).1).instrumentalness
        ≤ 1 := by
  simp only [generateMusicCharacteristics, analyzeAdvancedFeatures]
  refine ⟨⟨by linarith, by linarith⟩, ⟨?_, ?_⟩, ?_, ?_, ?_⟩
  · unfold calculateValence
    apply le_min (by norm_num)
    have h1 := getMajorKeyStrength_nonneg _ (calculateChroma_nonneg M freqD)
    have h2 := calculateSpectralCentroid_nonneg freqD
    have h3 := calculateHarmonicRatio_nonneg freqD
    positivity
  · exact min_le_left _ _
  · exact min_le_left _ _
  · exact min_le_left _ _
  · exact min_le_left _ _

/-- C5 witness: a concrete instantiation of the amended range statement. -/
theorem C5_witness :
    (0 ≤ (generateMusicCharacteristics M0 audio0 beat0
        (analyzeAdvancedFeatures M0 [] beat0 [] []).1).energy ∧
      (generateMusicCharacteristics M0 audio0 beat0
        (analyzeAdvancedFeatures M0 [] beat0 [] []).1).energy ≤ 1) ∧
    (0 ≤ (generateMusicCharacteristics M0 audio0 beat0
        (analyzeAdvancedFeatures M0 [] beat0 [] []).1).valence ∧
      (generateMusicCharacteristics M0 audio0 beat0
        (analyzeAdvancedFeatures M0 [] beat0 [] []).1).valence ≤ 1) ∧
    (generateMusicCharacteristics M0 audio0 beat0
      (analyzeAdvancedFeatures M0 [] beat0 [] []).1).danceability ≤ 1 ∧
    (generateMusicCharacteristics M0 audio0 beat0
      (analyzeAdvancedFeatures M0 [] beat0 [] []).1).acousticness ≤ 1 ∧
    (generateMusicCharacteristics M0 audio0 beat0
      (analyzeAdvancedFeatures M0 [] beat0 [] []).1).instrumentalness ≤ 1 :=
  C5_characteristic_ranges M0 audio0 beat0 [] [] []
    (by norm_num [audio0]) (by norm_num [audio0]) (by norm_num [audio0])
    (by norm_num [audio0]) (by norm_num [audio0]) (by norm_num [audio0])

theorem isLikelyHarmonic_high (x : ℚ) (hx : 6282 ≤ x) :
    isLikelyHarmonic x = false := by
  rw [Bool.eq_false_iff]
  intro hc
  simp only [isLikelyHarmonic, fundamentalFreqs, List.any_eq_true,
    decide_eq_true_eq] at hc
  obtain ⟨f, hf, h, hh, habs⟩ := hc
  rw [show List.range' 1 8 = [1, 2, 3, 4, 5, 6, 7, 8] from rfl] at hh
  have hfh : f * (h : ℚ) ≤ 6272 := by
    fin_cases hf <;> fin_cases hh <;> norm_num
  rw [abs_lt] at habs
  linarith [habs.2]

/-- C5 counterexample: with all the spectral energy in the top bin of a 4-bin
spectrum (bin frequency 16537.5 Hz), the spectral centroid exceeds 5000 Hz by
enough that `acousticness = min(1, ...)` is NEGATIVE: `Math.min(1, x)` clamps
only from above, falsifying "clamped to [0,1] by construction". -/
theorem C5_counterexample :
    (generateMusicCharacteristics M0 audio0 beat0
      (analyzeAdvancedFeatures M0 [] beat0 [] freqC5).1).acousticness < 0 := by
  have hlem : isLikelyHarmonic (33075/2 : ℚ) = false :=
    isLikelyHarmonic_high _ (by norm_num)
  simp only [generateMusicCharacteristics, analyzeAdvancedFeatures]
  unfold calculateAcousticness
  norm_num [calculateSpectralCentroid, calculateHarmonicRatio,
    calculateSpectralFlux, freqC5, analyzerSampleRate, List.range_succ, hlem]

theorem getD_replicate_zero (n i : ℕ) :
    (List.replicate n (0 : ℕ)).getD i 0 = 0 := by
  induction n generalizing i with
  | zero => simp
  | succ n ih =>
    cases i with
    | zero => simp [List.replicate_succ]
    | succ i => simp [List.replicate_succ, List.getD_cons_succ, ih]

theorem band_average_zero (ctx : ℚ) (n : ℕ) (a b : ℚ) :
    getFrequencyBandAverage ctx (List.replicate n 0) a b = 0 := by
  simp only [getFrequencyBandAverage]
  have hsum : ∀ idxs : List ℕ,
      (idxs.map (fun i => ((List.replicate n (0 : ℕ)).getD i 0 : ℚ))).sum
        = 0 := by
    intro idxs
    apply List.sum_eq_zero
    intro x hx
    obtain ⟨i, -, rfl⟩ := List.mem_map.mp hx
    rw [getD_replicate_zero]
    norm_num
  rw [hsum]
  split <;> norm_num

theorem calculateEnergy_replicate_zero (s : ℚ → ℚ) (n : ℕ) (h0 : s 0 = 0) :
    calculateEnergy s (List.replicate n 0) = 0 := by
  simp only [calculateEnergy]
  have hsum : ((List.replicate n (0 : ℕ)).map
      (fun (v : ℕ) => (v : ℚ) * (v : ℚ))).sum = 0 := by
    apply List.sum_eq_zero
    intro x hx
    obtain ⟨v, hv, rfl⟩ := List.mem_map.mp hx
    rw [List.eq_of_mem_replicate hv]
    norm_num
  rw [hsum, zero_div, h0, zero_div]

theorem centroid_replicate_zero (n : ℕ) :
    calculateSpectralCentroid (List.replicate n 0) = 0 := by
  simp only [calculateSpectralCentroid]
  have hm : ((List.range (List.replicate n (0 : ℕ)).length).map
      (fun i => ((List.replicate n (0 : ℕ)).getD i 0 : ℚ) / 255)).sum = 0 := by
    apply List.sum_eq_zero
    intro x hx
    obtain ⟨i, -, rfl⟩ := List.mem_map.mp hx
    rw [getD_replicate_zero]
    norm_num
  rw [hm]
  norm_num

theorem harm_replicate_zero (n : ℕ) :
    calculateHarmonicRatio (List.replicate n 0) = 0 := by
  simp only [calculateHarmonicRatio]
  have hm : ((List.range (List.replicate n (0 : ℕ)).length).map
      (fun i => (((List.replicate n (0 : ℕ)).getD i 0 : ℚ) / 255) ^ 2)).sum
        = 0 := by
    apply List.sum_eq_zero
    intro x hx
    obtain ⟨i, -, rfl⟩ := List.mem_map.mp hx
    rw [getD_replicate_zero]
    norm_num
  rw [hm]
  norm_num

theorem chromaStep_zeroMag (M : JsMath) (freq : List ℕ) (acc : List ℚ) (i : ℕ)
    (h : freq.getD i 0 = 0) : chromaStep M freq acc i = acc := by
  simp only [chromaStep, h, Nat.cast_zero, zero_div, add_zero]
  split
  · rw [set_getD_self]
  · rfl

theorem chromaFold_zeroMag (M : JsMath) (freq : List ℕ) :
    ∀ (is : List ℕ) (acc : List ℚ), (∀ i ∈ is, freq.getD i 0 = 0) →
    is.foldl (chromaStep M freq) acc = acc
  | [], acc, _ => rfl
  | i :: rest, acc, h => by
    rw [List.foldl_cons, chromaStep_zeroMag M freq acc i (h i (by simp))]
    exact chromaFold_zeroMag M freq rest acc
      (fun j hj => h j (List.mem_cons_of_mem _ hj))

theorem chroma_replicate_zero (M : JsMath) (n : ℕ) :
    calculateChroma M (List.replicate n 0) = List.replicate 12 0 := by
  simp only [calculateChroma]
  rw [chromaFold_zeroMag M (List.replicate n 0) _ _
    (fun i _ => getD_replicate_zero n i)]
  norm_num

/-- On any frame whose frequency array is all-zero, the mood cascade lands in
its THIRD branch (`valence < 0.3`), yielding `"dark"`. -/
theorem silent_mood (M : JsMath) (n m : ℕ) (ad : AudioAnalysisData)
    (hb : ad.bass = 0) (hm : ad.mid = 0) (ht : ad.treble = 0)
    (hist : List AdvancedAudioFeatures) (bd : BeatData) :
    detectMood (analyzeAdvancedFeatures M hist bd (List.replicate m 0)
      (List.replicate n 0)).1 ad = "dark" := by
  simp only [analyzeAdvancedFeatures, detectMood, calculateValence,
    getMajorKeyStrength, hb, hm, ht, centroid_replicate_zero,
    chroma_replicate_zero, harm_replicate_zero]
  norm_num [dotProduct, List.replicate]

theorem silent_detectBeat (s : ℚ → ℚ) (h0 : s 0 = 0) (st : DetectorState)
    (t : ℚ) (hE : ∀ x ∈ st.energyHistory, x = 0) :
    detectBeat s st 0 t = (false, 0, st) := by
  simp only [detectBeat]
  split
  · rfl
  · have hrec : ∀ x ∈ st.energyHistory.drop (st.energyHistory.length - 10),
        x = 0 := fun x hx => hE x (List.mem_of_mem_drop hx)
    have hmean : listMean
        (st.energyHistory.drop (st.energyHistory.length - 10)) = 0 := by
      rw [listMean, List.sum_eq_zero hrec, zero_div]
    have hvar : ((st.energyHistory.drop (st.energyHistory.length - 10)).map
        (fun val => (val - listMean
          (st.energyHistory.drop (st.energyHistory.length - 10))) ^ 2)).sum
          = 0 := by
      apply List.sum_eq_zero
      intro x hx
      obtain ⟨v, hv, rfl⟩ := List.mem_map.mp hx
      rw [hrec v hv, hmean]
      norm_num
    split
    · next hcond =>
      exfalso
      have hA := hcond.1
      rw [hvar, hmean] at hA
      rw [zero_div, h0] at hA
      rw [energyThreshold] at hA
      have : (0 : ℚ) / (0 + 1/1000) = 0 := by norm_num
      rw [this] at hA
      linarith
    · rfl

/-- `calculateTempo` on a non-beat tick returns the last smoothed tempo
(default 120) and leaves the state unchanged. -/
theorem silent_tempo_eq (st : DetectorState) (t : ℚ) :
    calculateTempo st t false = (st.tempoHistory.getLastD 120, st) := by
  unfold calculateTempo
  rw [if_pos (Or.inl rfl)]

/-- One silent pipeline tick: no beat, tempo 120, and the silent-state
invariant is preserved. -/
theorem silent_analyze (s : ℚ → ℚ) (h0 : s 0 = 0) (d : DetectorState)
    (hinv : silentInv d) (n m : ℕ) (t : ℚ) :
    (analyze s d (List.replicate n 0) (List.replicate m 0) 0 0 0 t).1.isBeat
        = false ∧
    (analyze s d (List.replicate n 0) (List.replicate m 0) 0 0 0 t).1.tempo
        = 120 ∧
    silentInv
      (analyze s d (List.replicate n 0) (List.replicate m 0) 0 0 0 t).2 := by
  obtain ⟨hE, hB, hT, hL⟩ := hinv
  simp only [analyze, calculateEnergy_replicate_zero s n h0,
    updateFrequencyHistories]
  have hE2 : ∀ x ∈ (pushShift historySize d.energyHistory 0), x = 0 := by
    intro x hx
    rcases mem_pushShift hx with h | h
    · exact hE x h
    · exact h
  rw [silent_detectBeat s h0 _ t hE2]
  simp only [silent_tempo_eq]
  refine ⟨by trivial, ?_, ?_, ?_, ?_, ?_⟩
  · simp [hT]
  · intro x hx
    rw [(updateRhythmPatterns_state _ _).2.2.2.1,
      (updateBeatPhase_state _ _ _).2.2.2.1] at hx
    exact hE2 x hx
  · intro x hx
    rw [(updateRhythmPatterns_state _ _).2.2.2.2.2.2.1,
      (updateBeatPhase_state _ _ _).2.2.2.2.2.2.1] at hx
    rcases mem_pushShift hx with h | h
    · exact hB x h
    · exact h
  · rw [(updateRhythmPatterns_state _ _).2.2.2.2.2.1,
      (updateBeatPhase_state _ _ _).2.2.2.2.2.1]
    exact hT
  · rw [(updateRhythmPatterns_state _ _).2.2.2.2.1,
      (updateBeatPhase_state _ _ _).2.2.2.2.1]
    exact hL

/-- C6 run lemma: over any silent input trace from a silent-reachable state,
every tick reports no beat, tempo 120, zero energy and mood `"dark"`. -/
theorem C6_aux (M : JsMath) (ctx : ℚ) (n m : ℕ) (h0 : M.sqrt 0 = 0) :
    ∀ (times : List ℚ) (ps : PipelineState), silentInv ps.det →
    ∀ out ∈ (runSilent M ctx n m ps times).1,
      out.1.isBeat = false ∧ out.1.tempo = 120 ∧
      out.2.energy = 0 ∧ out.2.mood = "dark"
  | [], ps => by
    intro _ out hout
    simp [runSilent] at hout
  | t :: rest, ps => by
    intro hinv out hout
    have hb0 : getFrequencyBandAverage ctx (List.replicate n 0) 0 60 = 0 :=
      band_average_zero ctx n 0 60
    have hb1 : getFrequencyBandAverage ctx (List.replicate n 0) 60 250 = 0 :=
      band_average_zero ctx n 60 250
    have hb2 : getFrequencyBandAverage ctx (List.replicate n 0) 250 500 = 0 :=
      band_average_zero ctx n 250 500
    have hsa := silent_analyze M.sqrt h0 ps.det hinv n m t
    simp only [runSilent, List.mem_cons] at hout
    rcases hout with rfl | hmem
    · simp only [pipelineTick, hb0, hb1, hb2]
      refine ⟨hsa.1, hsa.2.1, ?_, ?_⟩
      · simp only [generateMusicCharacteristics]
        norm_num
      · simp only [generateMusicCharacteristics]
        exact silent_mood M n m _ rfl rfl rfl ps.hist _
    · have hinv2 : silentInv (pipelineTick M ctx ps (List.replicate n 0)
          (List.replicate m 0) t).2.det := by
        simp only [pipelineTick, hb0, hb1, hb2]
        exact hsa.2.2
      exact C6_aux M ctx n m h0 rest _ hinv2 out hmem

/-- C6 counterexample: feeding all-zero arrays for 100 consecutive ticks, the
mood is `"dark"` (the cascade's third branch fires because valence is 0), not
the final default branch `"calm"` the claim expects. -/
theorem C6_counterexample :
    ((runSilent M0 44100 1 1 initPipeline
      (List.replicate 100 0)).1.getD 0 dummyOutput).2.mood = "dark" ∧
    "dark" ≠ "calm" := by
  constructor
  · have hstep : (runSilent M0 44100 1 1 initPipeline
        (List.replicate 100 0)).1 =
        (pipelineTick M0 44100 initPipeline (List.replicate 1 0)
          (List.replicate 1 0) 0).1 ::
        (runSilent M0 44100 1 1
          (pipelineTick M0 44100 initPipeline (List.replicate 1 0)
            (List.replicate 1 0) 0).2 (List.replicate 99 0)).1 := rfl
    rw [hstep, List.getD_cons_zero]
    have hb0 : getFrequencyBandAverage 44100 (List.replicate 1 0) 0 60 = 0 :=
      band_average_zero 44100 1 0 60
    have hb1 : getFrequencyBandAverage 44100 (List.replicate 1 0) 60 250
        = 0 := band_average_zero 44100 1 60 250
    have hb2 : getFrequencyBandAverage 44100 (List.replicate 1 0) 250 500
        = 0 := band_average_zero 44100 1 250 500
    simp only [pipelineTick, hb0, hb1, hb2, generateMusicCharacteristics,
      initPipeline]
    exact silent_mood M0 1 1 _ rfl rfl rfl [] _
  · decide

/-- C6 amended: all-zero frequency and time arrays for any number of
consecutive ticks give, on every tick, `isBeat = false`, tempo held at 120
(never set), characteristics energy 0, and mood `"dark"` — the cascade's
`valence < 0.3` branch, not its final default. -/
theorem C6_silent_scenario (M : JsMath) (ctx : ℚ) (n m : ℕ) (times : List ℚ)
    (h0 : M.sqrt 0 = 0) :
    ∀ out ∈ (runSilent M ctx n m initPipeline times).1,
      out.1.isBeat = false ∧ out.1.tempo = 120 ∧
      out.2.energy = 0 ∧ out.2.mood = "dark" := by
  apply C6_aux M ctx n m h0 times initPipeline
  refine ⟨?_, ?_, rfl, rfl⟩ <;> intro x hx <;>
    simp [initPipeline, initDetector] at hx

/-- C6 witness: the amended scenario, read off on the first tick of a
concrete 100-tick silent run. -/
theorem C6_witness :
    (pipelineTick M0 44100 initPipeline (List.replicate 1 0)
        (List.replicate 1 0) 0).1.1.isBeat = false ∧
    (pipelineTick M0 44100 initPipeline (List.replicate 1 0)
        (List.replicate 1 0) 0).1.1.tempo = 120 ∧
    (pipelineTick M0 44100 initPipeline (List.replicate 1 0)
        (List.replicate 1 0) 0).1.2.energy = 0 ∧
    (pipelineTick M0 44100 initPipeline (List.replicate 1 0)
        (List.replicate 1 0) 0).1.2.mood = "dark" :=
  C6_silent_scenario M0 44100 1 1 (List.replicate 100 0) rfl
    (pipelineTick M0 44100 initPipeline (List.replicate 1 0)
      (List.replicate 1 0) 0).1
    (by
      rw [show (runSilent M0 44100 1 1 initPipeline
          (List.replicate 100 0)).1 =
          (pipelineTick M0 44100 initPipeline (List.replicate 1 0)
            (List.replicate 1 0) 0).1 ::
          (runSilent M0 44100 1 1
            (pipelineTick M0 44100 initPipeline (List.replicate 1 0)
              (List.replicate 1 0) 0).2 (List.replicate 99 0)).1 from rfl]
      exact List.mem_cons_self _ _)

/-! ### C7: chroma / key-detection on the A-harmonic spectrum -/

theorem freqA_length : freqA.length = 2205 := by
  simp [freqA]

theorem freqA_getD (i : ℕ) (h : i < 2205) :
    freqA.getD i 0 =
      if i = 44 ∨ i = 88 ∨ i = 132 ∨ i = 176 ∨ i = 352 then 200 else 0 := by
  simp [freqA, List.getD_eq_getElem?_getD, List.getElem?_map,
    List.getElem?_range, h]

theorem freqA_getD_zero (i : ℕ) (h : i < 2205)
    (h5 : ¬(i = 44 ∨ i = 88 ∨ i = 132 ∨ i = 176 ∨ i = 352)) :
    freqA.getD i 0 = 0 := by
  rw [freqA_getD i h, if_neg h5]

/-- Bin 44 of `freqA` carries 440 Hz = A4: pitch class 0 (A, not C). -/
theorem chromaStep_freqA_44 (M : JsMath) (h1 : M.log2 1 = 0) (acc : List ℚ) :
    chromaStep M freqA acc 44 = acc.set 0 (acc.getD 0 0 + 40/51) := by
  have hg : freqA.getD 44 0 = 200 := by
    rw [freqA_getD 44 (by norm_num)]; norm_num
  have hr : jsRound 0 = 0 := jsRound_of_bounds 0 0 (by norm_num) (by norm_num)
  have ht : ((0 : ℤ)).tmod 12 = 0 := by decide
  simp only [chromaStep, freqA_length, hg]
  norm_num [analyzerSampleRate, h1, hr, ht]

/-- Bin 88: 880 Hz, one octave above A4, pitch class 0 again. -/
theorem chromaStep_freqA_88 (M : JsMath) (h2 : M.log2 2 = 1) (acc : List ℚ) :
    chromaStep M freqA acc 88 = acc.set 0 (acc.getD 0 0 + 40/51) := by
  have hg : freqA.getD 88 0 = 200 := by
    rw [freqA_getD 88 (by norm_num)]; norm_num
  have hr : jsRound 12 = 12 :=
    jsRound_of_bounds 12 12 (by norm_num) (by norm_num)
  have ht : ((12 : ℤ)).tmod 12 = 0 := by decide
  have htn : ((0 : ℤ)).toNat = 0 := by decide
  simp only [chromaStep, freqA_length, hg]
  norm_num [analyzerSampleRate, h2, hr, ht, htn]

/-- Bin 132: 1320 Hz, the third harmonic of 440 (ratio 3, an E):
`round(12*log2 3) = 19`, pitch class 7. -/
theorem chromaStep_freqA_132 (M : JsMath) (h3l : 31/20 ≤ M.log2 3)
    (h3u : M.log2 3 ≤ 81/50) (acc : List ℚ) :
    chromaStep M freqA acc 132 = acc.set 7 (acc.getD 7 0 + 40/51) := by
  have hg : freqA.getD 132 0 = 200 := by
    rw [freqA_getD 132 (by norm_num)]; norm_num
  have hr : jsRound (12 * M.log2 3) = 19 :=
    jsRound_of_bounds _ 19 (by push_cast; linarith) (by push_cast; linarith)
  have ht : ((19 : ℤ)).tmod 12 = 7 := by decide
  have htn : ((7 : ℤ)).toNat = 7 := by decide
  simp only [chromaStep, freqA_length, hg]
  norm_num [analyzerSampleRate, hr, ht, htn]

/-- Bin 176: 1760 Hz, two octaves above A4, pitch class 0. -/
theorem chromaStep_freqA_176 (M : JsMath) (h4 : M.log2 4 = 2) (acc : List ℚ) :
    chromaStep M freqA acc 176 = acc.set 0 (acc.getD 0 0 + 40/51) := by
  have hg : freqA.getD 176 0 = 200 := by
    rw [freqA_getD 176 (by norm_num)]; norm_num
  have hr : jsRound 24 = 24 :=
    jsRound_of_bounds 24 24 (by norm_num) (by norm_num)
  have ht : ((24 : ℤ)).tmod 12 = 0 := by decide
  have htn : ((0 : ℤ)).toNat = 0 := by decide
  simp only [chromaStep, freqA_length, hg]
  norm_num [analyzerSampleRate, h4, hr, ht, htn]

/-- Bin 352: 3520 Hz, three octaves above A4, pitch class 0. -/
theorem chromaStep_freqA_352 (M : JsMath) (h8 : M.log2 8 = 3) (acc : List ℚ) :
    chromaStep M freqA acc 352 = acc.set 0 (acc.getD 0 0 + 40/51) := by
  have hg : freqA.getD 352 0 = 200 := by
    rw [freqA_getD 352 (by norm_num)]; norm_num
  have hr : jsRound 36 = 36 :=
    jsRound_of_bounds 36 36 (by norm_num) (by norm_num)
  have ht : ((36 : ℤ)).tmod 12 = 0 := by decide
  have htn : ((0 : ℤ)).toNat = 0 := by decide
  simp only [chromaStep, freqA_length, hg]
  norm_num [analyzerSampleRate, h8, hr, ht, htn]

/-- The chroma vector of the A-harmonic spectrum: all weight on pitch
classes 0 (the octaves of A) and 7 (the E), *indexed from A*, since the
reference frequency of the pitch-class formula is 440 Hz. -/
theorem chroma_freqA (M : JsMath) (h1 : M.log2 1 = 0) (h2 : M.log2 2 = 1)
    (h4 : M.log2 4 = 2) (h8 : M.log2 8 = 3)
    (h3l : 31/20 ≤ M.log2 3) (h3u : M.log2 3 ≤ 81/50) :
    calculateChroma M freqA =
      [4/5, 0, 0, 0, 0, 0, 0, 1/5, 0, 0, 0, 0] := by
  have hz : ∀ (a k : ℕ), a + k ≤ 2205 →
      (∀ j ∈ [44, 88, 132, 176, 352], ¬(a ≤ j ∧ j < a + k)) →
      ∀ i ∈ List.range' a k, freqA.getD i 0 = 0 := by
    intro a k hak hns i hi
    rw [List.mem_range'_1] at hi
    refine freqA_getD_zero i (by omega) ?_
    have n1 := hns 44 (by norm_num)
    have n2 := hns 88 (by norm_num)
    have n3 := hns 132 (by norm_num)
    have n4 := hns 176 (by norm_num)
    have n5 := hns 352 (by norm_num)
    rintro (rfl | rfl | rfl | rfl | rfl)
    · exact n1 hi
    · exact n2 hi
    · exact n3 hi
    · exact n4 hi
    · exact n5 hi
  have hdec : List.range' 1 2204 =
      List.range' 1 43 ++ ([44] ++ (List.range' 45 43 ++ ([88] ++
      (List.range' 89 43 ++ ([132] ++ (List.range' 133 43 ++ ([176] ++
      (List.range' 177 175 ++ ([352] ++ List.range' 353 1852))))))))) := by
    rw [← @List.range'_one 44 1, ← @List.range'_one 88 1,
      ← @List.range'_one 132 1, ← @List.range'_one 176 1,
      ← @List.range'_one 352 1]
    rw [List.range'_append_1, List.range'_append_1, List.range'_append_1,
      List.range'_append_1, List.range'_append_1, List.range'_append_1,
      List.range'_append_1, List.range'_append_1, List.range'_append_1,
      List.range'_append_1]
  simp only [calculateChroma, freqA_length]
  norm_num
  rw [hdec]
  simp only [List.foldl_append, List.foldl_cons, List.foldl_nil]
  rw [chromaFold_zeroMag M freqA _ _ (hz 1 43 (by norm_num) (by norm_num)),
    chromaStep_freqA_44 M h1]
  rw [chromaFold_zeroMag M freqA _ _ (hz 45 43 (by norm_num) (by norm_num)),
    chromaStep_freqA_88 M h2]
  rw [chromaFold_zeroMag M freqA _ _ (hz 89 43 (by norm_num) (by norm_num)),
    chromaStep_freqA_132 M h3l h3u]
  rw [chromaFold_zeroMag M freqA _ _ (hz 133 43 (by norm_num) (by norm_num)),
    chromaStep_freqA_176 M h4]
  rw [chromaFold_zeroMag M freqA _ _ (hz 177 175 (by norm_num) (by norm_num)),
    chromaStep_freqA_352 M h8]
  rw [chromaFold_zeroMag M freqA _ _
    (hz 353 1852 (by norm_num) (by norm_num))]
  norm_num [List.replicate, List.set, List.getD]

/-- `detectKey` on that chroma vector walks the 12 rotations and keeps the
first strict maximum; rotation 0 scores 1 and is never strictly beaten, so
the reported key is `keyNames[0] = "C"`. -/
theorem detectKey_chromaA :
    detectKey [4/5, 0, 0, 0, 0, 0, 0, 1/5, 0, 0, 0, 0] = "C" := by
  have hrange : List.range 12 = [0,1,2,3,4,5,6,7,8,9,10,11] := rfl
  simp only [detectKey, hrange, List.foldl_cons, List.foldl_nil]
  norm_num [dotProduct, keyNames]

/-- C7: on the synthetic spectrum `freqA`, whose energy sits only at 440 Hz
(A4), its octaves 880/1760/3520 Hz and its third harmonic 1320 Hz, the
chroma-plus-key-detection pipeline returns `"C"`, not the claimed `"A"`:
`calculateChroma` indexes pitch classes relative to the 440 Hz reference
(so index 0 is the pitch class A), while `detectKey` labels index 0 as
`"C"`.  The hypotheses pin `log2` at exactly the values `Math.log2` takes
on the five ratios involved. -/
theorem C7_key_detection (M : JsMath) (h1 : M.log2 1 = 0) (h2 : M.log2 2 = 1)
    (h4 : M.log2 4 = 2) (h8 : M.log2 8 = 3)
    (h3l : 31/20 ≤ M.log2 3) (h3u : M.log2 3 ≤ 81/50) :
    detectKey (calculateChroma M freqA) = "C" ∧
    detectKey (calculateChroma M freqA) ≠ "A" := by
  rw [chroma_freqA M h1 h2 h4 h8 h3l h3u, detectKey_chromaA]
  exact ⟨rfl, by decide⟩

/-- C7 witness: the divergence at the concrete `Math` instantiation `M7`. -/
theorem C7_witness :
    detectKey (calculateChroma M7 freqA) = "C" ∧
    detectKey (calculateChroma M7 freqA) ≠ "A" :=
  C7_key_detection M7 (by norm_num [M7]) (by norm_num [M7])
    (by norm_num [M7]) (by norm_num [M7]) (by norm_num [M7])
    (by norm_num [M7])

end Visualizer
